import Mathlib

/-!
Verification development for the Canvas LMS dashboard repository.

The definitions below are a shallow embedding of the Canvas synchronization
and caching layer:

- a model of the token encryption utilities in
  src/web-app/src/lib/services/canvas-service.ts (CanvasTokenManager), built
  on a model of the Node `crypto.createCipher` / `crypto.createDecipher` API
  in AES-256-GCM mode;
- models of the Canvas API client data (CanvasCourse, CanvasAssignment,
  CanvasGrade) and of `getFullSyncData`;
- an explicit-state model of the Supabase-backed cache (courses, assignments,
  grades, sync_logs, canvas_connections tables from sql/schema.sql) and of
  `CanvasSyncService.syncCanvasData`;
- a model of the dashboard data route (the GET handler forwarding to the
  backend and computing `due_soon`, `completed_this_week`, `average_grade`);
- a model of `ConflictResolutionService.detectConflicts` and
  `identifyConflictFields`.

Machine timestamps (ISO date strings and JavaScript Date values) are modeled
as integers (epoch milliseconds); comparing two Date objects corresponds to
comparing the integers.  External effects (HTTP fetches against the Canvas
API, token decryption, the backend validation endpoint) are captured by
explicit environment records, so that the stateful service code becomes a
pure function of the environment and the database state.
-/

/-! ## Model of the Node crypto API as used by CanvasTokenManager

The source (canvas-service.ts lines 44-70) uses the password-based
`crypto.createCipher(algorithm, password)` / `crypto.createDecipher` API with
the authenticated algorithm `aes-256-gcm`.  Node semantics relevant here:

- `createCipher` derives the key from the password (EVP_BytesToKey);
- in GCM mode the cipher XORs the plaintext with a key-dependent keystream
  (counter mode) and additionally computes an authentication tag, available
  only through `cipher.getAuthTag()` after `final()`;
- `decipher.final()` in GCM mode authenticates the ciphertext: it throws
  unless `decipher.setAuthTag` was called beforehand with the tag produced by
  the matching cipher.

No claim depends on the concrete key derivation, keystream or tag values, so
these are modeled by fixed executable digests; the state machine of the
cipher objects (in particular that `final` throws when no auth tag was set)
is modeled exactly.
-/

/-- Bytes of a string (UTF code points serve as the byte model). -/
def strToBytes (s : String) : List Nat := s.data.map Char.toNat

/-- A byte list rendered back as a string. -/
def bytesToStr (bs : List Nat) : String := String.mk (bs.map Char.ofNat)

/-- Value of a hexadecimal digit character. -/
def hexDigitVal (c : Char) : Nat :=
  if c.toNat ≥ 97 then c.toNat - 87 else c.toNat - 48

/-- The hexadecimal digit character for a value below sixteen. -/
def hexDigitChar (n : Nat) : Char :=
  if n < 10 then Char.ofNat (48 + n) else Char.ofNat (87 + n)

/-- Two hexadecimal characters for one byte. -/
def byteToHex (b : Nat) : List Char :=
  [hexDigitChar (b / 16 % 16), hexDigitChar (b % 16)]

/-- Hex encoding of a byte list. -/
def bytesToHex (bs : List Nat) : String := String.mk (bs.flatMap byteToHex)

/-- Hex decoding back to bytes (pairs of characters). -/
def hexToBytes : List Char → List Nat
  | c1 :: c2 :: rest => (hexDigitVal c1 * 16 + hexDigitVal c2) :: hexToBytes rest
  | _ => []

/-- Models the EVP_BytesToKey password-to-key derivation performed by
`crypto.createCipher`; any fixed deterministic digest serves the model since
no claim depends on the derived key value. -/
def deriveKey (password : String) : Nat :=
  (strToBytes password).foldl (fun h b => (h * 131 + b) % (2 ^ 64)) 5381

/-- Models the AES-256-GCM keystream byte at position `i` for key `key`. -/
def keystreamByte (key i : Nat) : Nat := (key + 251 * i + i * i) % 256

/-- GCM counter-mode body: XOR the data with the keystream (self-inverse). -/
def xorKeystream (key : Nat) (bs : List Nat) : List Nat :=
  bs.enum.map (fun p => Nat.xor (p.2 % 256) (keystreamByte key p.1))

/-- Models the GCM authentication tag over a ciphertext. -/
def gcmAuthTag (key : Nat) (ct : List Nat) : List Nat :=
  [ct.foldl (fun h b => (h * 257 + b + key) % 256) (key % 256)]

/-- State of a Node `Cipher` object created by `crypto.createCipher`. -/
structure NodeCipher where
  key : Nat
deriving DecidableEq, Repr

/-- `crypto.createCipher(algorithm, password)`. -/
def createCipher (_algorithm : String) (password : String) : NodeCipher :=
  ⟨deriveKey password⟩

/-- Combined `cipher.update` plus `cipher.final`: the produced ciphertext. -/
def cipherRun (c : NodeCipher) (plain : String) : List Nat :=
  xorKeystream c.key (strToBytes plain)

/-- `cipher.getAuthTag()`, available after `final`; the source never calls
this, so the tag below is computed by the model only to specify what the
matching decipher would have needed. -/
def cipherGetAuthTag (c : NodeCipher) (ciphertext : List Nat) : List Nat :=
  gcmAuthTag c.key ciphertext

/-- State of a Node `Decipher` object: the derived key and the
authentication tag, if one was supplied via `decipher.setAuthTag`. -/
structure NodeDecipher where
  key : Nat
  authTag : Option (List Nat)
deriving DecidableEq, Repr

/-- `crypto.createDecipher(algorithm, password)`: no auth tag is set. -/
def createDecipher (_algorithm : String) (password : String) : NodeDecipher :=
  ⟨deriveKey password, none⟩

/-- `decipher.setAuthTag(tag)`. -/
def decipherSetAuthTag (d : NodeDecipher) (tag : List Nat) : NodeDecipher :=
  { d with authTag := some tag }

/-- `decipher.update`: counter mode decryption (XOR is self-inverse). -/
def decipherUpdate (d : NodeDecipher) (ciphertext : List Nat) : List Nat :=
  xorKeystream d.key ciphertext

/-- `decipher.final()` in GCM mode: throws unless `setAuthTag` supplied the
tag of the matching cipher for this ciphertext. -/
def decipherFinal (d : NodeDecipher) (ciphertext : List Nat) : Except String Unit :=
  match d.authTag with
  | none => Except.error "Unsupported state or unable to authenticate data"
  | some tag =>
      if tag = gcmAuthTag d.key ciphertext then Except.ok ()
      else Except.error "Unsupported state or unable to authenticate data"

/-- canvas-service.ts line 45. -/
def ENCRYPTION_ALGORITHM : String := "aes-256-gcm"

/-- Models the value of `process.env.CANVAS_ENCRYPTION_KEY` (line 46): a
fixed server-held secret string. -/
def ENCRYPTION_KEY : String := "server-held-canvas-encryption-key"

namespace CanvasTokenManager

/-- `CanvasTokenManager.encryptToken` (canvas-service.ts lines 53-58):
create a cipher from ENCRYPTION_KEY + salt, run update and final, return the
hex ciphertext.  The GCM authentication tag is never retrieved. -/
def encryptToken (token : String) (salt : String) : String :=
  let cipher := createCipher ENCRYPTION_ALGORITHM (ENCRYPTION_KEY ++ salt)
  bytesToHex (cipherRun cipher token)

/-- `CanvasTokenManager.decryptToken` (canvas-service.ts lines 60-69):
create a decipher from ENCRYPTION_KEY + salt, run update and final inside a
try block; any throw is mapped to the generic error.  `setAuthTag` is never
called, so `final` follows its no-tag path. -/
def decryptToken (encryptedToken : String) (salt : String) : Except String String :=
  let decipher := createDecipher ENCRYPTION_ALGORITHM (ENCRYPTION_KEY ++ salt)
  let ct := hexToBytes encryptedToken.data
  let decrypted := decipherUpdate decipher ct
  match decipherFinal decipher ct with
  | Except.ok _ => Except.ok (bytesToStr decrypted)
  | Except.error _ => Except.error "Failed to decrypt Canvas token"

end CanvasTokenManager

/-! ## Canvas API data (canvas-service.ts lines 4-42)

`id` fields keep their numeric type; timestamp strings (`start_at`, `due_at`,
`submitted_at`, `graded_at`, `updated_at`) are modeled as epoch-millisecond
integers; `teachers` keeps only the `display_name` of each entry, which is
the only field the sync reads. -/

structure CanvasCourse where
  id : Nat
  name : String
  course_code : String
  enrollment_term_id : Option Nat
  start_at : Option Int
  end_at : Option Int
  teachers : List String
deriving DecidableEq, Repr

structure CanvasAssignment where
  id : Nat
  name : String
  description : Option String
  due_at : Option Int
  points_possible : Option Int
  submission_types : List String
  submitted_at : Option Int
  graded_at : Option Int
  course_id : Nat
deriving DecidableEq, Repr

/-- The nested `grades` object of a Canvas enrollment. -/
structure CanvasGradeInfo where
  current_score : Option Int
  current_grade : Option String
  total_points : Option Int
  updated_at : Option Int
deriving DecidableEq, Repr

structure CanvasGrade where
  id : Option Nat
  course_id : Nat
  grades : Option CanvasGradeInfo
deriving DecidableEq, Repr

structure CanvasSyncData where
  courses : List CanvasCourse
  assignments : List CanvasAssignment
  grades : List CanvasGrade
deriving DecidableEq, Repr

/-! ## Cache database state (sql/schema.sql)

Each table is a list of rows.  Surrogate UUID primary keys are modeled as
naturals drawn from per-table counters.  The non-key payload of a cached row
is grouped in a `...Fields` record so that a row is its key material plus
payload plus the trigger-maintained `updated_at` timestamp. -/

/-- Payload of a `courses` row as written by the sync (schema.sql 38-55). -/
structure CourseFields where
  user_id : String
  canvas_connection_id : Nat
  canvas_course_id : String
  name : String
  course_code : String
  instructor_name : Option String
  enrollment_status : String
  start_date : Option Int
  end_date : Option Int
deriving DecidableEq, Repr

structure CourseRow where
  id : Nat
  fields : CourseFields
  updated_at : Int
deriving DecidableEq, Repr

/-- Payload of an `assignments` row as written by the sync (schema.sql 58-74). -/
structure AssignmentFields where
  user_id : String
  course_id : Nat
  canvas_assignment_id : String
  title : String
  description : Option String
  due_date : Option Int
  points_possible : Option Int
  submission_types : List String
  status : String
  submitted_at : Option Int
  graded_at : Option Int
deriving DecidableEq, Repr

structure AssignmentRow where
  fields : AssignmentFields
  updated_at : Int
deriving DecidableEq, Repr

/-- Payload of a `grades` row as written by the sync (schema.sql 77-91). -/
structure GradeFields where
  user_id : String
  course_id : Nat
  canvas_grade_id : Option String
  score : Option Int
  grade : Option String
  points_possible : Option Int
  graded_at : Option Int
deriving DecidableEq, Repr

structure GradeRow where
  fields : GradeFields
  updated_at : Int
deriving DecidableEq, Repr

/-- A `sync_logs` row (schema.sql 151-162). -/
structure SyncLogRow where
  id : Nat
  user_id : String
  canvas_connection_id : Nat
  status : String
  sync_type : String
  started_at : Int
  completed_at : Option Int
  error_message : Option String
  items_synced : Nat
deriving DecidableEq, Repr

/-- A `canvas_connections` row (schema.sql 23-35); this is also the
`CanvasConnection` value handed to `syncCanvasData`. -/
structure ConnectionRow where
  id : Nat
  user_id : String
  canvas_url : String
  canvas_name : String
  encrypted_token : String
  token_salt : String
  status : String
  last_sync : Option Int
deriving DecidableEq, Repr

/-- The cache database state. -/
structure DB where
  connections : List ConnectionRow
  courses : List CourseRow
  assignments : List AssignmentRow
  grades : List GradeRow
  syncLogs : List SyncLogRow
  nextCourseId : Nat
  nextLogId : Nat
deriving DecidableEq, Repr

/-! ## Upsert semantics

supabase-js `.upsert(values, { onConflict })` issues a PostgREST request that
becomes `INSERT ... ON CONFLICT (cols) DO UPDATE`.  Postgres accepts the
statement only when the conflict target matches a declared unique constraint
of the table; otherwise it rejects the insert (unique-constraint inference
fails, error 42P10) and supabase-js reports the failure in the `error` field
of the awaited result instead of throwing.  The sync code ignores that
result, so a rejected upsert leaves the table unchanged.

The constraint lists below transcribe sql/schema.sql: courses declares
UNIQUE(canvas_connection_id, canvas_course_id) at line 54 and assignments
declares UNIQUE(course_id, canvas_assignment_id) at line 73, while the grades
table (lines 77-91) declares no unique constraint besides its primary key. -/

def coursesUniqueConstraints : List (List String) :=
  [["canvas_connection_id", "canvas_course_id"]]

def assignmentsUniqueConstraints : List (List String) :=
  [["course_id", "canvas_assignment_id"]]

def gradesUniqueConstraints : List (List String) := []

/-- Conflict target named by the courses upsert (canvas-service.ts 229). -/
def coursesOnConflict : List String := ["canvas_connection_id", "canvas_course_id"]

/-- Conflict target named by the assignments upsert (canvas-service.ts 277). -/
def assignmentsOnConflict : List String := ["course_id", "canvas_assignment_id"]

/-- Conflict target named by the grades upsert (canvas-service.ts 298). -/
def gradesOnConflict : List String := ["user_id", "course_id", "canvas_grade_id"]

/-- Key material of a courses row for its unique constraint. -/
def courseKey (r : CourseRow) : Nat × String :=
  (r.fields.canvas_connection_id, r.fields.canvas_course_id)

/-- Key material of an assignments row for its unique constraint. -/
def assignmentKey (r : AssignmentRow) : Nat × String :=
  (r.fields.course_id, r.fields.canvas_assignment_id)

/-- Key material of a grades row for the conflict target named by the code. -/
def gradeKey (r : GradeRow) : String × Nat × Option String :=
  (r.fields.user_id, r.fields.course_id, r.fields.canvas_grade_id)

/-- Upsert into `courses`: with the matching unique constraint declared, a
row with the same key is overwritten in place (the database trigger advances
`updated_at`), otherwise a fresh row is appended with a new surrogate id. -/
def upsertCourse (now : Int) (db : DB) (p : CourseFields) : DB :=
  if coursesUniqueConstraints.contains coursesOnConflict then
    if db.courses.any (fun r => courseKey r = (p.canvas_connection_id, p.canvas_course_id)) then
      { db with courses := db.courses.map (fun r =>
          if courseKey r = (p.canvas_connection_id, p.canvas_course_id) then
            { r with fields := p, updated_at := now }
          else r) }
    else
      { db with
        courses := db.courses ++ [⟨db.nextCourseId, p, now⟩],
        nextCourseId := db.nextCourseId + 1 }
  else db

/-- Upsert into `assignments`, keyed like `upsertCourse`. -/
def upsertAssignment (now : Int) (db : DB) (p : AssignmentFields) : DB :=
  if assignmentsUniqueConstraints.contains assignmentsOnConflict then
    if db.assignments.any (fun r => assignmentKey r = (p.course_id, p.canvas_assignment_id)) then
      { db with assignments := db.assignments.map (fun r =>
          if assignmentKey r = (p.course_id, p.canvas_assignment_id) then
            { r with fields := p, updated_at := now }
          else r) }
    else
      { db with assignments := db.assignments ++ [⟨p, now⟩] }
  else db

/-- Upsert into `grades`: the conflict target named by the code matches no
unique constraint of the grades table, so the insert is rejected by the
database and, the caller ignoring the returned error, the table is left
unchanged. -/
def upsertGrade (now : Int) (db : DB) (p : GradeFields) : DB :=
  if gradesUniqueConstraints.contains gradesOnConflict then
    if db.grades.any (fun r => gradeKey r = (p.user_id, p.course_id, p.canvas_grade_id)) then
      { db with grades := db.grades.map (fun r =>
          if gradeKey r = (p.user_id, p.course_id, p.canvas_grade_id) then
            { r with fields := p, updated_at := now }
          else r) }
    else
      { db with grades := db.grades ++ [⟨p, now⟩] }
  else db

/-! ## The Canvas API environment and getFullSyncData

The Canvas HTTP client (canvas-service.ts 73-173) and the token decryption
performed inside the sync are external effects; an environment record fixes
their outcomes for one sync run.  `decryptToken` is the behavior of
`CanvasTokenManager.decryptToken` as the sync observes it (instantiating the
field with the model above reproduces the real, always-failing behavior);
each fetch either yields a parsed body or throws with an error message. -/

structure CanvasEnv where
  decryptToken : String → String → Except String String
  testConnection : Bool
  getCourses : Except String (List CanvasCourse)
  getAssignments : Nat → Except String (List CanvasAssignment)
  getGrades : Nat → Except String (List CanvasGrade)

def emptySyncData : CanvasSyncData := ⟨[], [], []⟩

/-- One iteration of the per-course loop of `getFullSyncData` (lines
156-169): fetch the assignments and grades of the course together; on
success push the course and its items (stamping each with the course id), on
any failure log the per-course console error and keep going. -/
def fullSyncStep (env : CanvasEnv) (acc : CanvasSyncData × List String)
    (course : CanvasCourse) : CanvasSyncData × List String :=
  match env.getAssignments course.id, env.getGrades course.id with
  | Except.ok as, Except.ok gs =>
      ({ courses := acc.1.courses ++ [course],
         assignments := acc.1.assignments ++ as.map (fun a => { a with course_id := course.id }),
         grades := acc.1.grades ++ gs.map (fun g => { g with course_id := course.id }) },
       acc.2)
  | _, _ =>
      (acc.1, acc.2 ++ ["Failed to sync course " ++ toString course.id ++ ":"])

/-- `CanvasAPI.getFullSyncData` (lines 148-172): the course list fetch is
outside the per-course try, so its failure propagates; per-course failures
are logged and skipped.  The second component of a successful result is the
console error log. -/
def getFullSyncData (env : CanvasEnv) : Except String (CanvasSyncData × List String) :=
  match env.getCourses with
  | Except.error e => Except.error e
  | Except.ok courses => Except.ok (courses.foldl (fullSyncStep env) (emptySyncData, []))

/-! ## CanvasSyncService.syncCanvasData (canvas-service.ts 183-345) -/

/-- Status determination for a fetched assignment (lines 247-260): start at
upcoming, then in turn overwrite with overdue, submitted, completed when the
corresponding condition holds. -/
def assignmentStatus (a : CanvasAssignment) (now : Int) : String :=
  let status0 := "upcoming"
  let status1 :=
    if (match a.due_at with | some d => decide (d < now) | none => false) then "overdue"
    else status0
  let status2 := if a.submitted_at.isSome then "submitted" else status1
  if a.graded_at.isSome then "completed" else status2

/-- The courses upsert payload (lines 218-230). -/
def courseFieldsOfCanvas (uid : String) (connId : Nat) (c : CanvasCourse) : CourseFields :=
  { user_id := uid
    canvas_connection_id := connId
    canvas_course_id := toString c.id
    name := c.name
    course_code := c.course_code
    instructor_name := c.teachers.head?
    enrollment_status := if c.enrollment_term_id.isSome then "active" else "completed"
    start_date := c.start_at
    end_date := c.end_at }

/-- The assignments upsert payload (lines 264-278). -/
def assignmentFieldsOfCanvas (uid : String) (cid : Nat) (now : Int)
    (a : CanvasAssignment) : AssignmentFields :=
  { user_id := uid
    course_id := cid
    canvas_assignment_id := toString a.id
    title := a.name
    description := a.description
    due_date := a.due_at
    points_possible := a.points_possible
    submission_types := a.submission_types
    status := assignmentStatus a now
    submitted_at := a.submitted_at
    graded_at := a.graded_at }

/-- The grades upsert payload (lines 289-299). -/
def gradeFieldsOfCanvas (uid : String) (cid : Nat) (g : CanvasGrade) : GradeFields :=
  { user_id := uid
    course_id := cid
    canvas_grade_id := g.id.map toString
    score := g.grades.bind (fun i => i.current_score)
    grade := g.grades.bind (fun i => i.current_grade)
    points_possible := g.grades.bind (fun i => i.total_points)
    graded_at := g.grades.bind (fun i => i.updated_at) }

/-- The courses loop (lines 215-232): upsert every fetched course and count
each one. -/
def syncCourses (uid : String) (connId : Nat) (now : Int) (st : DB × Nat)
    (cs : List CanvasCourse) : DB × Nat :=
  cs.foldl (fun st c => (upsertCourse now st.1 (courseFieldsOfCanvas uid connId c), st.2 + 1)) st

/-- The `courses` select for the course map (lines 235-238): rows of this
connection. -/
def connectionCourses (db : DB) (connId : Nat) : List CourseRow :=
  db.courses.filter (fun r => r.fields.canvas_connection_id = connId)

/-- `courseMap.get` (line 240): a JavaScript Map built from key-value pairs
keeps the last binding of a duplicated key, hence the reversed search. -/
def courseMapLookup (rows : List CourseRow) (cid : String) : Option Nat :=
  (rows.reverse.find? (fun r => r.fields.canvas_course_id = cid)).map (fun r => r.id)

/-- The assignments loop (lines 243-280): items whose course id is not in
the course map are skipped without counting; the rest are upserted and
counted. -/
def syncAssignments (uid : String) (rows : List CourseRow) (now : Int) (st : DB × Nat)
    (as : List CanvasAssignment) : DB × Nat :=
  as.foldl (fun st a =>
    match courseMapLookup rows (toString a.course_id) with
    | none => st
    | some cid => (upsertAssignment now st.1 (assignmentFieldsOfCanvas uid cid now a), st.2 + 1)) st

/-- The grades loop (lines 283-301), with the same course-map skip. -/
def syncGrades (uid : String) (rows : List CourseRow) (now : Int) (st : DB × Nat)
    (gs : List CanvasGrade) : DB × Nat :=
  gs.foldl (fun st g =>
    match courseMapLookup rows (toString g.course_id) with
    | none => st
    | some cid => (upsertGrade now st.1 (gradeFieldsOfCanvas uid cid g), st.2 + 1)) st

/-- `.update(...).eq(id, connId)` on canvas_connections. -/
def updateConnectionRows (db : DB) (connId : Nat) (f : ConnectionRow → ConnectionRow) : DB :=
  { db with connections := db.connections.map (fun r => if r.id = connId then f r else r) }

/-- `.update(...).eq(id, logId)` on sync_logs. -/
def updateSyncLogRows (db : DB) (logId : Nat) (f : SyncLogRow → SyncLogRow) : DB :=
  { db with syncLogs := db.syncLogs.map (fun r => if r.id = logId then f r else r) }

/-- Everything a sync run produces: the final database, the returned value
or rethrown error message, and the console error log. -/
structure SyncOutcome where
  db : DB
  result : Except String Nat
  consoleErrors : List String
deriving Repr

/-- The catch block of `syncCanvasData` (lines 324-344): mark the sync log
failed with the error message, mark the connection errored, rethrow. -/
def syncFailure (db : DB) (logId : Nat) (connId : Nat) (now : Int) (msg : String)
    (consoleErrors : List String) : SyncOutcome :=
  let db1 := updateSyncLogRows db logId (fun r =>
    { r with status := "failed", completed_at := some now, error_message := some msg })
  let db2 := updateConnectionRows db1 connId (fun r => { r with status := "error" })
  { db := db2, result := Except.error msg, consoleErrors := consoleErrors ++ ["Canvas sync failed:"] }

/-- The successful tail of `syncCanvasData` (lines 212-322): the three
upsert loops, the connection update (last_sync and status connected) and the
sync log update (completed, items_synced). -/
def syncHappy (db : DB) (connection : ConnectionRow) (logId : Nat) (now : Int)
    (data : CanvasSyncData) (consoleErrors : List String) : SyncOutcome :=
  let st1 := syncCourses connection.user_id connection.id now (db, 0) data.courses
  let rows := connectionCourses st1.1 connection.id
  let st2 := syncAssignments connection.user_id rows now st1 data.assignments
  let st3 := syncGrades connection.user_id rows now st2 data.grades
  let db4 := updateConnectionRows st3.1 connection.id (fun r =>
    { r with last_sync := some now, status := "connected" })
  let db5 := updateSyncLogRows db4 logId (fun r =>
    { r with status := "completed", completed_at := some now, items_synced := st3.2 })
  { db := db5, result := Except.ok st3.2, consoleErrors := consoleErrors }

/-- `CanvasSyncService.syncCanvasData` (lines 183-345): insert the syncing
log row, then decrypt the token, test the connection and fetch everything;
any of those three failing lands in the catch block, otherwise the upsert
loops and the closing updates run.  `now` models the wall clock of the run
(the `new Date()` calls). -/
def syncCanvasData (env : CanvasEnv) (db : DB) (connection : ConnectionRow)
    (syncType : String) (now : Int) : SyncOutcome :=
  let logId := db.nextLogId
  let db1 : DB :=
    { db with
      syncLogs := db.syncLogs ++ [{
        id := logId
        user_id := connection.user_id
        canvas_connection_id := connection.id
        status := "syncing"
        sync_type := syncType
        started_at := now
        completed_at := none
        error_message := none
        items_synced := 0 }]
      nextLogId := db.nextLogId + 1 }
  match env.decryptToken connection.encrypted_token connection.token_salt with
  | Except.error msg => syncFailure db1 logId connection.id now msg []
  | Except.ok _token =>
    if !env.testConnection then
      syncFailure db1 logId connection.id now "Canvas connection failed" []
    else
      match getFullSyncData env with
      | Except.error msg => syncFailure db1 logId connection.id now msg []
      | Except.ok (data, consoleErrors) => syncHappy db1 connection logId now data consoleErrors

/-! ## Dashboard data route (settings/page.tsx bundle, GET handler lines
564-751)

The handler authenticates, asks the backend whether the Canvas token is
valid, and either returns the zero-stats fallback payload or computes the
dashboard stats over the JSON bodies fetched from the backend.  Cached
assignment and grade JSON keeps only the fields the handler reads.  Numeric
grade arithmetic is done in ℚ, which models exactly the JavaScript rational
values arising here. -/

/-- A course JSON object from the backend; the handler only takes the length
of the list. -/
structure CourseJson where
  id : Nat
deriving DecidableEq, Repr

/-- An assignment JSON object: the handler reads due_date and status. -/
structure AssignmentJson where
  due_date : Option Int
  status : String
deriving DecidableEq, Repr

/-- The nested assignment of a grade JSON object. -/
structure GradeAssignmentJson where
  points_possible : Int
deriving DecidableEq, Repr

/-- A grade JSON object: the handler reads score and assignment.points_possible. -/
structure GradeJson where
  score : Int
  assignment : Option GradeAssignmentJson
deriving DecidableEq, Repr

/-- Outcome of one entry of the `Promise.allSettled` fan-out: a fulfilled
response with its ok flag and parsed body, or a rejection. -/
inductive SettledFetch (α : Type) where
  | fulfilled (ok : Bool) (body : α)
  | rejected
deriving DecidableEq, Repr

/-- `status === fulfilled && value.ok ? await json() : []` (lines 646-656). -/
def settledOr {α : Type} (f : SettledFetch (List α)) : List α :=
  match f with
  | SettledFetch.fulfilled true body => body
  | _ => []

/-- Parsed body of the validate-token response. -/
structure ValidationResult where
  ok : Bool
  valid : Bool
deriving DecidableEq, Repr

/-- Environment of one GET request: the authenticated user, the outcome of
the validate-token fetch (none models the fetch throwing, e.g. the 5 second
timeout with the backend down), the three data fetches, and the wall
clock. -/
structure DashEnv where
  user : Option String
  validateFetch : Option ValidationResult
  coursesFetch : SettledFetch (List CourseJson)
  assignmentsFetch : SettledFetch (List AssignmentJson)
  gradesFetch : SettledFetch (List GradeJson)
  now : Int
deriving DecidableEq, Repr

/-- The stats object of the response body. -/
structure DashStats where
  total_courses : Nat
  due_soon : Nat
  completed_this_week : Nat
  average_grade : ℚ
  total_assignments : Option Nat
  grade_count : Option Nat
deriving DecidableEq, Repr

/-- The parts of the JSON response the claims are about, plus the HTTP
status. -/
structure RouteResponse where
  httpStatus : Nat
  errorMsg : Option String
  connected : Option Bool
  message : Option String
  stats : Option DashStats
deriving DecidableEq, Repr

/-- The zero stats literal spelled out by the fallback returns (lines
596-601, 612-617, 726-731). -/
def zeroStats : DashStats :=
  { total_courses := 0
    due_soon := 0
    completed_this_week := 0
    average_grade := 0
    total_assignments := none
    grade_count := none }

/-- The fallback response body: HTTP 200, connected false, zero stats. -/
def fallbackResponse (message : Option String) : RouteResponse :=
  { httpStatus := 200
    errorMsg := none
    connected := some false
    message := message
    stats := some zeroStats }

/-- `7 * 24 * 60 * 60 * 1000` (line 660). -/
def oneWeekMs : Int := 7 * 24 * 60 * 60 * 1000

/-- The due-soon filter predicate (lines 662-667): a due date strictly after
now, at most one week out, and status upcoming or in_progress. -/
def dueSoonPred (now : Int) (a : AssignmentJson) : Bool :=
  match a.due_date with
  | none => false
  | some d =>
      decide (now < d) && decide (d ≤ now + oneWeekMs) &&
        (a.status == "upcoming" || a.status == "in_progress")

/-- `dueSoon` (lines 662-667). -/
def dueSoonCount (assignments : List AssignmentJson) (now : Int) : Nat :=
  (assignments.filter (dueSoonPred now)).length

/-- `completed` (lines 669-671). -/
def completedCount (assignments : List AssignmentJson) : Nat :=
  (assignments.filter (fun a => a.status == "completed" || a.status == "submitted")).length

/-- The per-grade percentage (lines 675-677): guarded by
`assignment?.points_possible > 0`, which is false when the nested assignment
is absent. -/
def gradePercentage (g : GradeJson) : ℚ :=
  match g.assignment with
  | some a => if 0 < a.points_possible then (g.score : ℚ) / (a.points_possible : ℚ) * 100 else 0
  | none => 0

/-- `averageGrade` (lines 673-680). -/
def averageGrade (grades : List GradeJson) : ℚ :=
  if 0 < grades.length then
    (grades.foldl (fun sum g => sum + gradePercentage g) 0) / (grades.length : ℚ)
  else 0

/-- `Math.round`: the nearest integer, rounding half toward positive
infinity. -/
def jsRound (x : ℚ) : Int := Int.floor (x + 1 / 2)

/-- The GET handler of the dashboard data route (lines 568-751). -/
def dashboardDataGET (env : DashEnv) : RouteResponse :=
  match env.user with
  | none =>
      { httpStatus := 401, errorMsg := some "Unauthorized",
        connected := none, message := none, stats := none }
  | some _ =>
    match env.validateFetch with
    | none =>
        fallbackResponse (some "Canvas integration not yet configured or backend unavailable")
    | some v =>
      if !v.ok then fallbackResponse none
      else if !v.valid then fallbackResponse none
      else
        let courses := settledOr env.coursesFetch
        let assignments := settledOr env.assignmentsFetch
        let grades := settledOr env.gradesFetch
        { httpStatus := 200
          errorMsg := none
          connected := some true
          message := none
          stats := some {
            total_courses := courses.length
            due_soon := dueSoonCount assignments env.now
            completed_this_week := completedCount assignments
            average_grade := (jsRound (averageGrade grades * 10) : ℚ) / 10
            total_assignments := some assignments.length
            grade_count := some grades.length } }

/-! ## ConflictResolutionService (canvas-service.ts 371-436)

`detectConflicts` loads the cached assignment rows of a user and, for each
one, re-fetches the Canvas counterpart (decrypting the token and searching
the assignment list of the course); any error and any missing counterpart
skip the row.  The whole re-fetch pipeline is modeled by an Option-valued
function. -/

/-- One detected conflict (lines 411-416). -/
structure Conflict where
  localRow : AssignmentFields
  remote : CanvasAssignment
  conflictFields : List String
deriving DecidableEq, Repr

/-- `identifyConflictFields` (lines 427-436): push the name of each
differing field, in the fixed order title, due_date, points_possible,
description. -/
def identifyConflictFields (localRow : AssignmentFields) (remote : CanvasAssignment) :
    List String :=
  (if localRow.title ≠ remote.name then ["title"] else []) ++
  (if localRow.due_date ≠ remote.due_at then ["due_date"] else []) ++
  (if localRow.points_possible ≠ remote.points_possible then ["points_possible"] else []) ++
  (if localRow.description ≠ remote.description then ["description"] else [])

/-- `hasConflict` (lines 405-408): only title, due_date and points_possible
are compared here. -/
def hasConflict (localRow : AssignmentFields) (remote : CanvasAssignment) : Bool :=
  decide (localRow.title ≠ remote.name) ||
  decide (localRow.due_date ≠ remote.due_at) ||
  decide (localRow.points_possible ≠ remote.points_possible)

/-- `detectConflicts` (lines 378-425) over the cached rows, with
`fetchRemote` standing for the per-row re-fetch (none models both a thrown
error and a counterpart not found, which the source treats alike by
skipping). -/
def detectConflicts (rows : List AssignmentFields)
    (fetchRemote : AssignmentFields → Option CanvasAssignment) : List Conflict :=
  rows.foldl (fun acc a =>
    match fetchRemote a with
    | some r =>
        if hasConflict a r then acc ++ [⟨a, r, identifyConflictFields a r⟩] else acc
    | none => acc) []

/-! ## Concrete scenarios used by the claim theorems and witnesses -/

/-- A stored Canvas connection. -/
def sampleConnection : ConnectionRow :=
  { id := 7
    user_id := "user-1"
    canvas_url := "https://canvas.example.edu"
    canvas_name := "Example U"
    encrypted_token := "deadbeef"
    token_salt := "a1b2"
    status := "connected"
    last_sync := none }

/-- A cache holding only the connection, before any sync. -/
def initialDB : DB :=
  { connections := [sampleConnection]
    courses := []
    assignments := []
    grades := []
    syncLogs := []
    nextCourseId := 0
    nextLogId := 0 }

def mkCourse (i : Nat) : CanvasCourse :=
  { id := i
    name := "Course " ++ toString i
    course_code := "C" ++ toString i
    enrollment_term_id := some 1
    start_at := none
    end_at := none
    teachers := ["Prof. Lee"] }

def mkAssignment (i cid : Nat) : CanvasAssignment :=
  { id := i
    name := "Assignment " ++ toString i
    description := none
    due_at := some 5000
    points_possible := some 10
    submission_types := ["online_upload"]
    submitted_at := none
    graded_at := none
    course_id := cid }

def mkGrade (i cid : Nat) : CanvasGrade :=
  { id := some i
    course_id := cid
    grades := some ⟨some 90, some "A", some 100, some 100⟩ }

/-- The mocked Canvas API of the spec test scenario: 3 courses, 5
assignments, 2 grades, every operation succeeding. -/
def mockedCanvasEnv : CanvasEnv :=
  { decryptToken := fun _ _ => Except.ok "canvas-token"
    testConnection := true
    getCourses := Except.ok [mkCourse 1, mkCourse 2, mkCourse 3]
    getAssignments := fun cid =>
      Except.ok
        (if cid = 1 then [mkAssignment 11 1, mkAssignment 12 1, mkAssignment 13 1]
         else if cid = 2 then [mkAssignment 21 2, mkAssignment 22 2]
         else [])
    getGrades := fun cid =>
      Except.ok
        (if cid = 1 then [mkGrade 101 1]
         else if cid = 2 then [mkGrade 102 2]
         else []) }

/-- A mocked Canvas API with a single course carrying a single grade. -/
def gradeOnlyEnv : CanvasEnv :=
  { decryptToken := fun _ _ => Except.ok "canvas-token"
    testConnection := true
    getCourses := Except.ok [mkCourse 1]
    getAssignments := fun _ => Except.ok []
    getGrades := fun cid => Except.ok (if cid = 1 then [mkGrade 101 1] else []) }

/-- A mocked Canvas API where the second of two courses fails its
per-course fetch while the first carries one assignment and one grade. -/
def oneFailureEnv : CanvasEnv :=
  { decryptToken := fun _ _ => Except.ok "canvas-token"
    testConnection := true
    getCourses := Except.ok [mkCourse 1, mkCourse 2]
    getAssignments := fun cid =>
      if cid = 2 then Except.error "Canvas API error: 500 Internal Server Error"
      else Except.ok [mkAssignment 11 1]
    getGrades := fun cid => Except.ok (if cid = 1 then [mkGrade 101 1] else []) }

/-- Ten cached assignment JSON objects: three are due strictly in the
future within the next 7 days with status upcoming, one more is due within
the window with status in_progress, the rest have no due date, a past due
date, a due date beyond the window, or a non-pending status. -/
def tenAssignmentsSample : List AssignmentJson :=
  [⟨some 1000, "upcoming"⟩,
   ⟨some 2000, "upcoming"⟩,
   ⟨some 3000, "upcoming"⟩,
   ⟨some 4000, "in_progress"⟩,
   ⟨none, "upcoming"⟩,
   ⟨some (-5), "upcoming"⟩,
   ⟨some 700000000, "upcoming"⟩,
   ⟨some 5000, "completed"⟩,
   ⟨some 6000, "submitted"⟩,
   ⟨some 1500, "overdue"⟩]

/-- A dashboard request whose backend reports a valid connection and serves
the ten assignments above, at wall clock 0. -/
def tenAssignmentsEnv : DashEnv :=
  { user := some "user-1"
    validateFetch := some ⟨true, true⟩
    coursesFetch := SettledFetch.fulfilled true []
    assignmentsFetch := SettledFetch.fulfilled true tenAssignmentsSample
    gradesFetch := SettledFetch.fulfilled true []
    now := 0 }

/-- The due-soon condition of claim C7 as stated: strictly future, within
the next 7 days, and status upcoming. -/
def claimDueSoonUpcoming (now : Int) (a : AssignmentJson) : Bool :=
  match a.due_date with
  | none => false
  | some d => decide (now < d ∧ d ≤ now + oneWeekMs) && a.status == "upcoming"

/-- The amended due-soon condition: strictly future, within the next 7
days, and status upcoming or in_progress. -/
def dueSoonSpecPred (now : Int) (a : AssignmentJson) : Bool :=
  match a.due_date with
  | none => false
  | some d => decide (now < d ∧ d ≤ now + oneWeekMs) &&
      (a.status == "upcoming" || a.status == "in_progress")

/-- A cached assignment row agreeing with its Canvas counterpart on title,
due date and points but not on description. -/
def descOnlyLocalRow : AssignmentFields :=
  { user_id := "user-1"
    course_id := 0
    canvas_assignment_id := "11"
    title := "Essay"
    description := some "old prompt"
    due_date := some 5000
    points_possible := some 10
    submission_types := ["online_upload"]
    status := "upcoming"
    submitted_at := none
    graded_at := none }

/-- The freshly fetched counterpart of `descOnlyLocalRow`, differing only in
the description field. -/
def descOnlyRemote : CanvasAssignment :=
  { id := 11
    name := "Essay"
    description := some "new prompt"
    due_at := some 5000
    points_possible := some 10
    submission_types := ["online_upload"]
    submitted_at := none
    graded_at := none
    course_id := 1 }

/-- The four field names compared by conflict identification. -/
def conflictFieldNames : List String :=
  ["title", "due_date", "points_possible", "description"]

/-- Whether a named compared field differs between the cached row and its
Canvas counterpart (the comparisons of identifyConflictFields, by name). -/
def fieldDiffers (localRow : AssignmentFields) (remote : CanvasAssignment)
    (f : String) : Bool :=
  if f = "title" then decide (localRow.title ≠ remote.name)
  else if f = "due_date" then decide (localRow.due_date ≠ remote.due_at)
  else if f = "points_possible" then decide (localRow.points_possible ≠ remote.points_possible)
  else if f = "description" then decide (localRow.description ≠ remote.description)
  else false

/-- A Canvas counterpart for `descOnlyLocalRow` differing in title and
description (used to exhibit a reported conflict). -/
def titleDescRemote : CanvasAssignment :=
  { descOnlyRemote with name := "Final Essay" }

/-- An initial cache holding just one connection. -/
def mkInitialDB (conn : ConnectionRow) : DB :=
  { connections := [conn]
    courses := []
    assignments := []
    grades := []
    syncLogs := []
    nextCourseId := 0
    nextLogId := 0 }

/-- The database state right after the syncing log row was inserted at the
start of a run (canvas-service.ts 186-197). -/
def logInsertedDB (db : DB) (conn : ConnectionRow) (syncType : String) (now : Int) : DB :=
  { db with
    syncLogs := db.syncLogs ++ [{
      id := db.nextLogId
      user_id := conn.user_id
      canvas_connection_id := conn.id
      status := "syncing"
      sync_type := syncType
      started_at := now
      completed_at := none
      error_message := none
      items_synced := 0 }]
    nextLogId := db.nextLogId + 1 }

/-- The identifying material of a courses row: surrogate id plus unique key.
The course map built by the sync is a function of this projection. -/
def courseKeyIdProj (r : CourseRow) : Nat × Nat × String :=
  (r.id, r.fields.canvas_connection_id, r.fields.canvas_course_id)

/-- The course map lookup expressed on the identifying projection alone. -/
def lookupProj (ps : List (Nat × Nat × String)) (connId : Nat) (cid : String) : Option Nat :=
  ((ps.filter (fun p => p.2.1 = connId)).reverse.find? (fun p => p.2.2 = cid)).map
    (fun p => p.1)

/-- A courses row with the given unique key exists. -/
def courseKeyPresent (l : List CourseRow) (k : Nat × String) : Prop :=
  ∃ r ∈ l, courseKey r = k

/-- An assignments row with the given unique key exists. -/
def assignmentKeyPresent (l : List AssignmentRow) (k : Nat × String) : Prop :=
  ∃ r ∈ l, assignmentKey r = k

/-- A dashboard request by an authenticated user whose backend validation
answers ok with valid = false (no working Canvas connection). -/
def dashDisconnectedEnv : DashEnv :=
  { user := some "user-1"
    validateFetch := some ⟨true, false⟩
    coursesFetch := SettledFetch.rejected
    assignmentsFetch := SettledFetch.rejected
    gradesFetch := SettledFetch.rejected
    now := 0 }

/-- Ten cached assignment JSON objects of which exactly three are pending
(status upcoming, none in_progress) with a due date strictly inside the next
7 days. -/
def tenPendingSample : List AssignmentJson :=
  [⟨some 1000, "upcoming"⟩,
   ⟨some 2000, "upcoming"⟩,
   ⟨some 3000, "upcoming"⟩,
   ⟨some 800000000, "in_progress"⟩,
   ⟨none, "upcoming"⟩,
   ⟨some (-5), "upcoming"⟩,
   ⟨some 700000000, "upcoming"⟩,
   ⟨some 5000, "completed"⟩,
   ⟨some 6000, "submitted"⟩,
   ⟨some 1500, "overdue"⟩]

/-- A dashboard request serving `tenPendingSample`. -/
def tenPendingEnv : DashEnv :=
  { user := some "user-1"
    validateFetch := some ⟨true, true⟩
    coursesFetch := SettledFetch.fulfilled true []
    assignmentsFetch := SettledFetch.fulfilled true tenPendingSample
    gradesFetch := SettledFetch.fulfilled true []
    now := 0 }

/-- A Canvas environment whose token decryption is the real
CanvasTokenManager model (and therefore always fails). -/
def realDecryptEnv : CanvasEnv :=
  { decryptToken := CanvasTokenManager.decryptToken
    testConnection := true
    getCourses := Except.ok []
    getAssignments := fun _ => Except.ok []
    getGrades := fun _ => Except.ok [] }

/-- A mocked Canvas API with three courses where the middle course fails
its assignments fetch and the first carries one assignment and one grade. -/
def threeCourseFailEnv : CanvasEnv :=
  { decryptToken := fun _ _ => Except.ok "canvas-token"
    testConnection := true
    getCourses := Except.ok [mkCourse 1, mkCourse 2, mkCourse 3]
    getAssignments := fun cid =>
      if cid = 2 then Except.error "Canvas API error: 500 Internal Server Error"
      else if cid = 1 then Except.ok [mkAssignment 11 1]
      else Except.ok []
    getGrades := fun cid => Except.ok (if cid = 1 then [mkGrade 101 1] else []) }

/-! ## Helper lemmas on the upsert and loop primitives -/

theorem upsertCourse_eq (now : Int) (db : DB) (p : CourseFields) :
    upsertCourse now db p =
      if db.courses.any (fun r => courseKey r = (p.canvas_connection_id, p.canvas_course_id)) then
        { db with courses := db.courses.map (fun r =>
            if courseKey r = (p.canvas_connection_id, p.canvas_course_id) then
              { r with fields := p, updated_at := now }
            else r) }
      else
        { db with
          courses := db.courses ++ [⟨db.nextCourseId, p, now⟩],
          nextCourseId := db.nextCourseId + 1 } := by
  unfold upsertCourse
  rw [if_pos (by decide : (coursesUniqueConstraints.contains coursesOnConflict) = true)]

theorem upsertAssignment_eq (now : Int) (db : DB) (p : AssignmentFields) :
    upsertAssignment now db p =
      if db.assignments.any (fun r => assignmentKey r = (p.course_id, p.canvas_assignment_id)) then
        { db with assignments := db.assignments.map (fun r =>
            if assignmentKey r = (p.course_id, p.canvas_assignment_id) then
              { r with fields := p, updated_at := now }
            else r) }
      else { db with assignments := db.assignments ++ [⟨p, now⟩] } := by
  unfold upsertAssignment
  rw [if_pos (by decide : (assignmentsUniqueConstraints.contains assignmentsOnConflict) = true)]

/-- The grades upsert never changes the database: its conflict target has no
matching unique constraint and the returned error is ignored. -/
theorem upsertGrade_noop (now : Int) (db : DB) (p : GradeFields) :
    upsertGrade now db p = db := rfl

theorem upsertCourse_frame (now : Int) (db : DB) (p : CourseFields) :
    (upsertCourse now db p).assignments = db.assignments ∧
    (upsertCourse now db p).grades = db.grades ∧
    (upsertCourse now db p).syncLogs = db.syncLogs ∧
    (upsertCourse now db p).connections = db.connections ∧
    (upsertCourse now db p).nextLogId = db.nextLogId := by
  rw [upsertCourse_eq]
  split <;> exact ⟨rfl, rfl, rfl, rfl, rfl⟩

theorem upsertAssignment_frame (now : Int) (db : DB) (p : AssignmentFields) :
    (upsertAssignment now db p).courses = db.courses ∧
    (upsertAssignment now db p).grades = db.grades ∧
    (upsertAssignment now db p).syncLogs = db.syncLogs ∧
    (upsertAssignment now db p).connections = db.connections ∧
    (upsertAssignment now db p).nextCourseId = db.nextCourseId ∧
    (upsertAssignment now db p).nextLogId = db.nextLogId := by
  rw [upsertAssignment_eq]
  split <;> exact ⟨rfl, rfl, rfl, rfl, rfl, rfl⟩

/-- Any upsert into courses makes its own key present. -/
theorem upsertCourse_key_present (now : Int) (db : DB) (p : CourseFields) :
    courseKeyPresent (upsertCourse now db p).courses
      (p.canvas_connection_id, p.canvas_course_id) := by
  rw [upsertCourse_eq]
  split
  next h =>
    rcases List.any_eq_true.mp h with ⟨r, hr, hk⟩
    refine ⟨{ r with fields := p, updated_at := now }, ?_, rfl⟩
    simp only [List.mem_map]
    exact ⟨r, hr, by simp [of_decide_eq_true hk]⟩
  next h =>
    exact ⟨⟨db.nextCourseId, p, now⟩, by simp, rfl⟩

/-- Upserting into courses preserves every key already present. -/
theorem upsertCourse_key_mono (now : Int) (db : DB) (p : CourseFields)
    (k : Nat × String) (h : courseKeyPresent db.courses k) :
    courseKeyPresent (upsertCourse now db p).courses k := by
  rcases h with ⟨r, hr, hk⟩
  rw [upsertCourse_eq]
  split
  next =>
    by_cases hm : courseKey r = (p.canvas_connection_id, p.canvas_course_id)
    · refine ⟨{ r with fields := p, updated_at := now }, ?_, ?_⟩
      · simp only [List.mem_map]
        exact ⟨r, hr, by simp [hm]⟩
      · have : courseKey { r with fields := p, updated_at := now } =
            (p.canvas_connection_id, p.canvas_course_id) := rfl
        rw [this, ← hm, hk]
    · refine ⟨r, ?_, hk⟩
      simp only [List.mem_map]
      exact ⟨r, hr, by simp [hm]⟩
  next =>
    exact ⟨r, by simp [hr], hk⟩

/-- When the key of the payload is already present, the courses upsert
overwrites in place: the identifying projection of the table is unchanged. -/
theorem upsertCourse_proj_stable (now : Int) (db : DB) (p : CourseFields)
    (h : courseKeyPresent db.courses (p.canvas_connection_id, p.canvas_course_id)) :
    (upsertCourse now db p).courses.map courseKeyIdProj = db.courses.map courseKeyIdProj := by
  rw [upsertCourse_eq]
  rw [if_pos]
  · simp only [List.map_map]
    refine List.map_congr_left ?_
    intro r _
    by_cases hm : courseKey r = (p.canvas_connection_id, p.canvas_course_id)
    · have h1 : r.fields.canvas_connection_id = p.canvas_connection_id := congrArg Prod.fst hm
      have h2 : r.fields.canvas_course_id = p.canvas_course_id := congrArg Prod.snd hm
      simp [courseKeyIdProj, hm, h1, h2]
    · simp [hm]
  · rcases h with ⟨r, hr, hk⟩
    exact List.any_eq_true.mpr ⟨r, hr, decide_eq_true hk⟩

theorem upsertAssignment_key_present (now : Int) (db : DB) (p : AssignmentFields) :
    assignmentKeyPresent (upsertAssignment now db p).assignments
      (p.course_id, p.canvas_assignment_id) := by
  rw [upsertAssignment_eq]
  split
  next h =>
    rcases List.any_eq_true.mp h with ⟨r, hr, hk⟩
    refine ⟨{ r with fields := p, updated_at := now }, ?_, rfl⟩
    simp only [List.mem_map]
    exact ⟨r, hr, by simp [of_decide_eq_true hk]⟩
  next h =>
    exact ⟨⟨p, now⟩, by simp, rfl⟩

theorem upsertAssignment_key_mono (now : Int) (db : DB) (p : AssignmentFields)
    (k : Nat × String) (h : assignmentKeyPresent db.assignments k) :
    assignmentKeyPresent (upsertAssignment now db p).assignments k := by
  rcases h with ⟨r, hr, hk⟩
  rw [upsertAssignment_eq]
  split
  next =>
    by_cases hm : assignmentKey r = (p.course_id, p.canvas_assignment_id)
    · refine ⟨{ r with fields := p, updated_at := now }, ?_, ?_⟩
      · simp only [List.mem_map]
        exact ⟨r, hr, by simp [hm]⟩
      · have : assignmentKey { r with fields := p, updated_at := now } =
            (p.course_id, p.canvas_assignment_id) := rfl
        rw [this, ← hm, hk]
    · refine ⟨r, ?_, hk⟩
      simp only [List.mem_map]
      exact ⟨r, hr, by simp [hm]⟩
  next =>
    exact ⟨r, by simp [hr], hk⟩

/-- When the key of the payload is already present, the assignments upsert
overwrites in place and the table length is unchanged. -/
theorem upsertAssignment_length_stable (now : Int) (db : DB) (p : AssignmentFields)
    (h : assignmentKeyPresent db.assignments (p.course_id, p.canvas_assignment_id)) :
    (upsertAssignment now db p).assignments.length = db.assignments.length := by
  rw [upsertAssignment_eq]
  rw [if_pos]
  · exact List.length_map _ _
  · rcases h with ⟨r, hr, hk⟩
    exact List.any_eq_true.mpr ⟨r, hr, decide_eq_true hk⟩

/-- Overwrites preserve assignment keys rowwise. -/
theorem upsertAssignment_keys_stable (now : Int) (db : DB) (p : AssignmentFields)
    (h : assignmentKeyPresent db.assignments (p.course_id, p.canvas_assignment_id)) :
    (upsertAssignment now db p).assignments.map assignmentKey =
      db.assignments.map assignmentKey := by
  rw [upsertAssignment_eq]
  rw [if_pos]
  · simp only [List.map_map]
    refine List.map_congr_left ?_
    intro r _
    by_cases hm : assignmentKey r = (p.course_id, p.canvas_assignment_id)
    · have h1 : r.fields.course_id = p.course_id := congrArg Prod.fst hm
      have h2 : r.fields.canvas_assignment_id = p.canvas_assignment_id := congrArg Prod.snd hm
      simp [assignmentKey, hm, h1, h2]
    · simp [hm]
  · rcases h with ⟨r, hr, hk⟩
    exact List.any_eq_true.mpr ⟨r, hr, decide_eq_true hk⟩

/-! ## Helper lemmas on the three sync loops -/

theorem syncCourses_count (uid : String) (connId : Nat) (now : Int)
    (cs : List CanvasCourse) :
    ∀ (db : DB) (k : Nat), (syncCourses uid connId now (db, k) cs).2 = k + cs.length := by
  induction cs with
  | nil => intro db k; simp [syncCourses]
  | cons c cs ih =>
      intro db k
      simp only [syncCourses, List.foldl_cons] at *
      rw [ih, List.length_cons]
      omega

theorem syncCourses_frame (uid : String) (connId : Nat) (now : Int)
    (cs : List CanvasCourse) :
    ∀ (db : DB) (k : Nat),
      (syncCourses uid connId now (db, k) cs).1.assignments = db.assignments ∧
      (syncCourses uid connId now (db, k) cs).1.grades = db.grades ∧
      (syncCourses uid connId now (db, k) cs).1.syncLogs = db.syncLogs ∧
      (syncCourses uid connId now (db, k) cs).1.connections = db.connections ∧
      (syncCourses uid connId now (db, k) cs).1.nextLogId = db.nextLogId := by
  induction cs with
  | nil => intro db k; exact ⟨rfl, rfl, rfl, rfl, rfl⟩
  | cons c cs ih =>
      intro db k
      simp only [syncCourses, List.foldl_cons] at *
      have hu := upsertCourse_frame now db (courseFieldsOfCanvas uid connId c)
      have hr := ih (upsertCourse now db (courseFieldsOfCanvas uid connId c)) (k + 1)
      exact ⟨hr.1.trans hu.1, hr.2.1.trans hu.2.1, hr.2.2.1.trans hu.2.2.1,
        hr.2.2.2.1.trans hu.2.2.2.1, hr.2.2.2.2.trans hu.2.2.2.2⟩

theorem syncCourses_key_mono (uid : String) (connId : Nat) (now : Int)
    (cs : List CanvasCourse) :
    ∀ (db : DB) (k : Nat) (key : Nat × String), courseKeyPresent db.courses key →
      courseKeyPresent (syncCourses uid connId now (db, k) cs).1.courses key := by
  induction cs with
  | nil => intro db k key h; exact h
  | cons c cs ih =>
      intro db k key h
      simp only [syncCourses, List.foldl_cons] at *
      exact ih _ _ _ (upsertCourse_key_mono now db _ key h)

/-- After the courses loop, every fetched course key is present. -/
theorem syncCourses_keys_present (uid : String) (connId : Nat) (now : Int)
    (cs : List CanvasCourse) :
    ∀ (db : DB) (k : Nat) (c : CanvasCourse), c ∈ cs →
      courseKeyPresent (syncCourses uid connId now (db, k) cs).1.courses
        (connId, toString c.id) := by
  induction cs with
  | nil => intro db k c h; cases h
  | cons c0 cs ih =>
      intro db k c h
      simp only [syncCourses, List.foldl_cons] at *
      rcases List.mem_cons.mp h with h0 | h1
      · subst h0
        exact syncCourses_key_mono uid connId now cs _ _ _
          (upsertCourse_key_present now db (courseFieldsOfCanvas uid connId c))
      · exact ih _ _ _ h1

/-- When every fetched course key is already present, the courses loop only
overwrites: the identifying projection of the table is unchanged. -/
theorem syncCourses_proj_stable (uid : String) (connId : Nat) (now : Int)
    (cs : List CanvasCourse) :
    ∀ (db : DB) (k : Nat),
      (∀ c ∈ cs, courseKeyPresent db.courses (connId, toString c.id)) →
      (syncCourses uid connId now (db, k) cs).1.courses.map courseKeyIdProj =
        db.courses.map courseKeyIdProj := by
  induction cs with
  | nil => intro db k _; rfl
  | cons c0 cs ih =>
      intro db k h
      simp only [syncCourses, List.foldl_cons] at *
      have h0 := h c0 (List.mem_cons_self c0 cs)
      have hstep := upsertCourse_proj_stable now db (courseFieldsOfCanvas uid connId c0) h0
      have hrest : ∀ c ∈ cs,
          courseKeyPresent (upsertCourse now db (courseFieldsOfCanvas uid connId c0)).courses
            (connId, toString c.id) := by
        intro c hc
        exact upsertCourse_key_mono now db _ _ (h c (List.mem_cons_of_mem c0 hc))
      exact (ih _ (k + 1) hrest).trans hstep

theorem syncAssignments_count (uid : String) (rows : List CourseRow) (now : Int)
    (as : List CanvasAssignment) :
    ∀ (db : DB) (k : Nat),
      (syncAssignments uid rows now (db, k) as).2 =
        k + as.countP (fun a => (courseMapLookup rows (toString a.course_id)).isSome) := by
  induction as with
  | nil => intro db k; simp [syncAssignments]
  | cons a as ih =>
      intro db k
      simp only [syncAssignments, List.foldl_cons, List.countP_cons] at *
      cases hl : courseMapLookup rows (toString a.course_id) with
      | none => simp only [hl]; rw [ih]; simp [hl] <;> omega
      | some cid => simp only [hl]; rw [ih]; simp [hl] <;> omega

theorem syncAssignments_frame (uid : String) (rows : List CourseRow) (now : Int)
    (as : List CanvasAssignment) :
    ∀ (db : DB) (k : Nat),
      (syncAssignments uid rows now (db, k) as).1.courses = db.courses ∧
      (syncAssignments uid rows now (db, k) as).1.grades = db.grades ∧
      (syncAssignments uid rows now (db, k) as).1.syncLogs = db.syncLogs ∧
      (syncAssignments uid rows now (db, k) as).1.connections = db.connections ∧
      (syncAssignments uid rows now (db, k) as).1.nextCourseId = db.nextCourseId ∧
      (syncAssignments uid rows now (db, k) as).1.nextLogId = db.nextLogId := by
  induction as with
  | nil => intro db k; exact ⟨rfl, rfl, rfl, rfl, rfl, rfl⟩
  | cons a as ih =>
      intro db k
      simp only [syncAssignments, List.foldl_cons] at *
      cases hl : courseMapLookup rows (toString a.course_id) with
      | none => simp only [hl]; exact ih db k
      | some cid =>
          simp only [hl]
          have hu := upsertAssignment_frame now db (assignmentFieldsOfCanvas uid cid now a)
          have hr := ih (upsertAssignment now db (assignmentFieldsOfCanvas uid cid now a)) (k + 1)
          exact ⟨hr.1.trans hu.1, hr.2.1.trans hu.2.1, hr.2.2.1.trans hu.2.2.1,
            hr.2.2.2.1.trans hu.2.2.2.1, hr.2.2.2.2.1.trans hu.2.2.2.2.1,
            hr.2.2.2.2.2.trans hu.2.2.2.2.2⟩

theorem syncAssignments_key_mono (uid : String) (rows : List CourseRow) (now : Int)
    (as : List CanvasAssignment) :
    ∀ (db : DB) (k : Nat) (key : Nat × String), assignmentKeyPresent db.assignments key →
      assignmentKeyPresent (syncAssignments uid rows now (db, k) as).1.assignments key := by
  induction as with
  | nil => intro db k key h; exact h
  | cons a as ih =>
      intro db k key h
      simp only [syncAssignments, List.foldl_cons] at *
      cases hl : courseMapLookup rows (toString a.course_id) with
      | none => simp only [hl]; exact ih db k key h
      | some cid =>
          simp only [hl]
          exact ih _ _ _ (upsertAssignment_key_mono now db _ key h)

/-- After the assignments loop, every mapped fetched assignment key is
present. -/
theorem syncAssignments_keys_present (uid : String) (rows : List CourseRow) (now : Int)
    (as : List CanvasAssignment) :
    ∀ (db : DB) (k : Nat) (a : CanvasAssignment) (cid : Nat), a ∈ as →
      courseMapLookup rows (toString a.course_id) = some cid →
      assignmentKeyPresent (syncAssignments uid rows now (db, k) as).1.assignments
        (cid, toString a.id) := by
  induction as with
  | nil => intro db k a cid h; cases h
  | cons a0 as ih =>
      intro db k a cid h hl
      simp only [syncAssignments, List.foldl_cons] at *
      rcases List.mem_cons.mp h with h0 | h1
      · subst h0
        rw [hl]
        exact syncAssignments_key_mono uid rows now as _ _ _
          (upsertAssignment_key_present now db (assignmentFieldsOfCanvas uid cid now a))
      · cases hl0 : courseMapLookup rows (toString a0.course_id) with
        | none => exact ih db k a cid h1 hl
        | some cid0 => exact ih _ _ a cid h1 hl

/-- When every mapped fetched assignment key is already present, the
assignments loop only overwrites: the table length is unchanged. -/
theorem syncAssignments_length_stable (uid : String) (rows : List CourseRow) (now : Int)
    (as : List CanvasAssignment) :
    ∀ (db : DB) (k : Nat),
      (∀ a ∈ as, ∀ cid, courseMapLookup rows (toString a.course_id) = some cid →
        assignmentKeyPresent db.assignments (cid, toString a.id)) →
      (syncAssignments uid rows now (db, k) as).1.assignments.length =
        db.assignments.length ∧
      (syncAssignments uid rows now (db, k) as).1.assignments.map assignmentKey =
        db.assignments.map assignmentKey := by
  induction as with
  | nil => intro db k _; exact ⟨rfl, rfl⟩
  | cons a0 as ih =>
      intro db k h
      simp only [syncAssignments, List.foldl_cons] at *
      cases hl0 : courseMapLookup rows (toString a0.course_id) with
      | none =>
          exact ih db k (fun a ha cid hcid => h a (List.mem_cons_of_mem a0 ha) cid hcid)
      | some cid0 =>
          have h0 := h a0 (List.mem_cons_self a0 as) cid0 hl0
          have hlen := upsertAssignment_length_stable now db
            (assignmentFieldsOfCanvas uid cid0 now a0) h0
          have hkeys := upsertAssignment_keys_stable now db
            (assignmentFieldsOfCanvas uid cid0 now a0) h0
          have hrest : ∀ a ∈ as, ∀ cid, courseMapLookup rows (toString a.course_id) = some cid →
              assignmentKeyPresent
                (upsertAssignment now db (assignmentFieldsOfCanvas uid cid0 now a0)).assignments
                (cid, toString a.id) := by
            intro a ha cid hcid
            exact upsertAssignment_key_mono now db _ _ (h a (List.mem_cons_of_mem a0 ha) cid hcid)
          have hr := ih (upsertAssignment now db (assignmentFieldsOfCanvas uid cid0 now a0))
            (k + 1) hrest
          exact ⟨hr.1.trans hlen, hr.2.trans hkeys⟩

/-- The grades loop never changes the database at all. -/
theorem syncGrades_db (uid : String) (rows : List CourseRow) (now : Int)
    (gs : List CanvasGrade) :
    ∀ (db : DB) (k : Nat), (syncGrades uid rows now (db, k) gs).1 = db := by
  induction gs with
  | nil => intro db k; rfl
  | cons g gs ih =>
      intro db k
      simp only [syncGrades, List.foldl_cons] at *
      cases hl : courseMapLookup rows (toString g.course_id) with
      | none => simp only [hl]; exact ih db k
      | some cid => simp only [hl]; rw [upsertGrade_noop]; exact ih db (k + 1)

theorem syncGrades_count (uid : String) (rows : List CourseRow) (now : Int)
    (gs : List CanvasGrade) :
    ∀ (db : DB) (k : Nat),
      (syncGrades uid rows now (db, k) gs).2 =
        k + gs.countP (fun g => (courseMapLookup rows (toString g.course_id)).isSome) := by
  induction gs with
  | nil => intro db k; simp [syncGrades]
  | cons g gs ih =>
      intro db k
      simp only [syncGrades, List.foldl_cons, List.countP_cons] at *
      cases hl : courseMapLookup rows (toString g.course_id) with
      | none => simp only [hl]; rw [ih]; simp [hl] <;> omega
      | some cid => simp only [hl]; rw [upsertGrade_noop, ih]; simp [hl] <;> omega

/-! ## Helper lemmas on the row update primitives and the course map -/

theorem map_update_of_ne {α : Type} (L : List α) (idf : α → Nat) (i : Nat) (f : α → α)
    (hfresh : ∀ r ∈ L, idf r ≠ i) :
    L.map (fun r => if idf r = i then f r else r) = L := by
  have h : L.map (fun r => if idf r = i then f r else r) = L.map (fun r => r) :=
    List.map_congr_left (fun r hr => if_neg (hfresh r hr))
  rw [h, List.map_id']

theorem updateSyncLogRows_frame (db : DB) (i : Nat) (f : SyncLogRow → SyncLogRow) :
    (updateSyncLogRows db i f).courses = db.courses ∧
    (updateSyncLogRows db i f).assignments = db.assignments ∧
    (updateSyncLogRows db i f).grades = db.grades ∧
    (updateSyncLogRows db i f).connections = db.connections := ⟨rfl, rfl, rfl, rfl⟩

theorem updateConnectionRows_frame (db : DB) (i : Nat) (f : ConnectionRow → ConnectionRow) :
    (updateConnectionRows db i f).courses = db.courses ∧
    (updateConnectionRows db i f).assignments = db.assignments ∧
    (updateConnectionRows db i f).grades = db.grades ∧
    (updateConnectionRows db i f).syncLogs = db.syncLogs := ⟨rfl, rfl, rfl, rfl⟩

theorem mem_updateSyncLogRows (db : DB) (i : Nat) (f : SyncLogRow → SyncLogRow)
    (r' : SyncLogRow) (h : r' ∈ (updateSyncLogRows db i f).syncLogs)
    (hf : ∀ r, (f r).id = r.id) (hid : r'.id = i) :
    ∃ r ∈ db.syncLogs, r.id = i ∧ r' = f r := by
  unfold updateSyncLogRows at h
  simp only [List.mem_map] at h
  obtain ⟨r, hr, heq⟩ := h
  by_cases hc : r.id = i
  · exact ⟨r, hr, hc, by rw [← heq, if_pos hc]⟩
  · rw [if_neg hc] at heq
    subst heq
    exact absurd hid hc

theorem mem_updateConnectionRows (db : DB) (i : Nat) (f : ConnectionRow → ConnectionRow)
    (r' : ConnectionRow) (h : r' ∈ (updateConnectionRows db i f).connections)
    (hf : ∀ r, (f r).id = r.id) (hid : r'.id = i) :
    ∃ r ∈ db.connections, r.id = i ∧ r' = f r := by
  unfold updateConnectionRows at h
  simp only [List.mem_map] at h
  obtain ⟨r, hr, heq⟩ := h
  by_cases hc : r.id = i
  · exact ⟨r, hr, hc, by rw [← heq, if_pos hc]⟩
  · rw [if_neg hc] at heq
    subst heq
    exact absurd hid hc

/-- The course map lookup is a function of the identifying projection of the
course table. -/
theorem courseMapLookup_eq_lookupProj (l : List CourseRow) (connId : Nat) (cid : String) :
    courseMapLookup (l.filter (fun r => r.fields.canvas_connection_id = connId)) cid =
      lookupProj (l.map courseKeyIdProj) connId cid := by
  unfold courseMapLookup lookupProj
  rw [List.filter_map, ← List.map_reverse, List.find?_map, Option.map_map]
  rfl

theorem connectionCourses_lookup_congr (db1 db2 : DB) (connId : Nat)
    (h : db1.courses.map courseKeyIdProj = db2.courses.map courseKeyIdProj) (cid : String) :
    courseMapLookup (connectionCourses db1 connId) cid =
      courseMapLookup (connectionCourses db2 connId) cid := by
  unfold connectionCourses
  rw [courseMapLookup_eq_lookupProj, courseMapLookup_eq_lookupProj, h]


/-- Anatomy of the successful tail of a sync run: the console log is passed
through; the returned count is the number of fetched courses plus the
numbers of fetched assignments and grades whose course id is mapped by the
course table built by the courses loop; the courses and assignments tables
are exactly what the two upsert loops produce; the grades table is
untouched; the connection rows carrying the connection id are marked
connected with last_sync set; the sync log rows carrying the log id are
marked completed with the returned count. -/
theorem syncHappy_anatomy (db : DB) (conn : ConnectionRow) (logId : Nat) (now : Int)
    (data : CanvasSyncData) (cerrs : List String) :
    (syncHappy db conn logId now data cerrs).consoleErrors = cerrs ∧
    (syncHappy db conn logId now data cerrs).result = Except.ok
      (data.courses.length
        + data.assignments.countP (fun a =>
            (courseMapLookup
              (connectionCourses (syncCourses conn.user_id conn.id now (db, 0) data.courses).1
                conn.id)
              (toString a.course_id)).isSome)
        + data.grades.countP (fun g =>
            (courseMapLookup
              (connectionCourses (syncCourses conn.user_id conn.id now (db, 0) data.courses).1
                conn.id)
              (toString g.course_id)).isSome)) ∧
    (syncHappy db conn logId now data cerrs).db.courses =
      (syncCourses conn.user_id conn.id now (db, 0) data.courses).1.courses ∧
    (syncHappy db conn logId now data cerrs).db.assignments =
      (syncAssignments conn.user_id
        (connectionCourses (syncCourses conn.user_id conn.id now (db, 0) data.courses).1 conn.id)
        now (syncCourses conn.user_id conn.id now (db, 0) data.courses)
        data.assignments).1.assignments ∧
    (syncHappy db conn logId now data cerrs).db.grades = db.grades ∧
    (syncHappy db conn logId now data cerrs).db.connections =
      db.connections.map (fun r => if r.id = conn.id then
        { r with last_sync := some now, status := "connected" } else r) ∧
    (syncHappy db conn logId now data cerrs).db.syncLogs =
      db.syncLogs.map (fun r => if r.id = logId then
        { r with
          status := "completed"
          completed_at := some now
          items_synced :=
            data.courses.length
              + data.assignments.countP (fun a =>
                  (courseMapLookup
                    (connectionCourses
                      (syncCourses conn.user_id conn.id now (db, 0) data.courses).1 conn.id)
                    (toString a.course_id)).isSome)
              + data.grades.countP (fun g =>
                  (courseMapLookup
                    (connectionCourses
                      (syncCourses conn.user_id conn.id now (db, 0) data.courses).1 conn.id)
                    (toString g.course_id)).isSome) } else r) := by
  simp only [syncHappy]
  have hcFrame := syncCourses_frame conn.user_id conn.id now data.courses db 0
  have hcCount := syncCourses_count conn.user_id conn.id now data.courses db 0
  rcases hc : syncCourses conn.user_id conn.id now (db, 0) data.courses with ⟨dbC, kC⟩
  rw [hc] at hcFrame hcCount
  dsimp only at hcFrame hcCount ⊢
  have haFrame := syncAssignments_frame conn.user_id (connectionCourses dbC conn.id) now
    data.assignments dbC kC
  have haCount := syncAssignments_count conn.user_id (connectionCourses dbC conn.id) now
    data.assignments dbC kC
  rcases ha : syncAssignments conn.user_id (connectionCourses dbC conn.id) now (dbC, kC)
      data.assignments with ⟨dbA, kA⟩
  rw [ha] at haFrame haCount
  dsimp only at haFrame haCount ⊢
  have hgDb := syncGrades_db conn.user_id (connectionCourses dbC conn.id) now data.grades dbA kA
  have hgCount := syncGrades_count conn.user_id (connectionCourses dbC conn.id) now
    data.grades dbA kA
  rcases hg : syncGrades conn.user_id (connectionCourses dbC conn.id) now (dbA, kA)
      data.grades with ⟨dbG, kG⟩
  rw [hg] at hgDb hgCount
  dsimp only at hgDb hgCount ⊢
  subst hgDb
  have hk : kG = data.courses.length
      + data.assignments.countP (fun a =>
          (courseMapLookup (connectionCourses dbC conn.id) (toString a.course_id)).isSome)
      + data.grades.countP (fun g =>
          (courseMapLookup (connectionCourses dbC conn.id) (toString g.course_id)).isSome) := by
    rw [hgCount, haCount, hcCount]
    omega
  rw [hk]
  simp only [updateConnectionRows, updateSyncLogRows]
  refine ⟨?_, ?_, ?_, ?_, ?_, ?_, ?_⟩ <;>
    first
      | trivial
      | rfl
      | exact haFrame.1
      | exact haFrame.2.1.trans hcFrame.2.1
      | rw [haFrame.2.2.2.1, hcFrame.2.2.2.1]
      | rw [haFrame.2.2.1, hcFrame.2.2.1]

/-- Anatomy of the catch block: the error is rethrown, the console notes the
failure, the cache tables are untouched, connection rows carrying the
connection id are marked errored (their other fields, in particular
last_sync, unchanged), and sync log rows carrying the log id are marked
failed with the message. -/
theorem syncFailure_anatomy (db : DB) (logId connId : Nat) (now : Int) (msg : String)
    (cerrs : List String) :
    (syncFailure db logId connId now msg cerrs).result = Except.error msg ∧
    (syncFailure db logId connId now msg cerrs).consoleErrors =
      cerrs ++ ["Canvas sync failed:"] ∧
    (syncFailure db logId connId now msg cerrs).db.courses = db.courses ∧
    (syncFailure db logId connId now msg cerrs).db.assignments = db.assignments ∧
    (syncFailure db logId connId now msg cerrs).db.grades = db.grades ∧
    (syncFailure db logId connId now msg cerrs).db.connections =
      db.connections.map (fun r => if r.id = connId then { r with status := "error" } else r) ∧
    (syncFailure db logId connId now msg cerrs).db.syncLogs =
      db.syncLogs.map (fun r => if r.id = logId then
        { r with status := "failed", completed_at := some now, error_message := some msg }
        else r) := by
  simp only [syncFailure, updateSyncLogRows, updateConnectionRows]
  refine ⟨?_, ?_, ?_, ?_, ?_, ?_, ?_⟩ <;> first | trivial | rfl

/-- On a run whose decryption, connection test and full fetch all succeed,
syncCanvasData is the happy tail applied to the log-inserted database. -/
theorem syncCanvasData_success (env : CanvasEnv) (db : DB) (conn : ConnectionRow)
    (syncType : String) (now : Int) (t : String) (data : CanvasSyncData)
    (cerrs : List String)
    (hd : env.decryptToken conn.encrypted_token conn.token_salt = Except.ok t)
    (ht : env.testConnection = true)
    (hs : getFullSyncData env = Except.ok (data, cerrs)) :
    syncCanvasData env db conn syncType now =
      syncHappy
        { db with
          syncLogs := db.syncLogs ++ [{
            id := db.nextLogId
            user_id := conn.user_id
            canvas_connection_id := conn.id
            status := "syncing"
            sync_type := syncType
            started_at := now
            completed_at := none
            error_message := none
            items_synced := 0 }]
          nextLogId := db.nextLogId + 1 }
        conn db.nextLogId now data cerrs := by
  unfold syncCanvasData
  rw [hd, ht, hs]
  simp

/-- On a run that fails before the upsert loops (decryption failure, failed
connection test, or course list fetch failure), syncCanvasData is the catch
block applied to the log-inserted database. -/
theorem syncCanvasData_failure (env : CanvasEnv) (db : DB) (conn : ConnectionRow)
    (syncType : String) (now : Int) (msg : String)
    (h : env.decryptToken conn.encrypted_token conn.token_salt = Except.error msg ∨
      (∃ t, env.decryptToken conn.encrypted_token conn.token_salt = Except.ok t ∧
        env.testConnection = false ∧ msg = "Canvas connection failed") ∨
      (∃ t, env.decryptToken conn.encrypted_token conn.token_salt = Except.ok t ∧
        env.testConnection = true ∧ getFullSyncData env = Except.error msg)) :
    syncCanvasData env db conn syncType now =
      syncFailure
        { db with
          syncLogs := db.syncLogs ++ [{
            id := db.nextLogId
            user_id := conn.user_id
            canvas_connection_id := conn.id
            status := "syncing"
            sync_type := syncType
            started_at := now
            completed_at := none
            error_message := none
            items_synced := 0 }]
          nextLogId := db.nextLogId + 1 }
        db.nextLogId conn.id now msg [] := by
  unfold syncCanvasData
  rcases h with hd | ⟨t, hd, ht, hmsg⟩ | ⟨t, hd, ht, hs⟩
  · rw [hd]
  · rw [hd, ht, hmsg]
    simp
  · rw [hd, ht, hs]
    simp

/-! ## Claim theorems -/

/-- C1: the token round trip is broken: for every token and salt, decrypting
the ciphertext produced by encryptToken with the very same salt raises the
generic failure instead of returning the token.  createCipher in GCM mode
produces an authentication tag that the source never retrieves, and
createDecipher.final refuses to authenticate without it, so decryptToken
always lands in its catch block. -/
theorem decryptToken_encryptToken_always_fails (token salt : String) :
    CanvasTokenManager.decryptToken (CanvasTokenManager.encryptToken token salt) salt
      = Except.error "Failed to decrypt Canvas token" ∧
    CanvasTokenManager.decryptToken (CanvasTokenManager.encryptToken token salt) salt
      ≠ Except.ok token := by
  refine ⟨rfl, ?_⟩
  intro h
  exact Except.noConfusion h

/-- C9: the status stored for a fetched assignment follows the fixed
priority graded > submitted > past-due > upcoming; in particular a graded
assignment that is also past due is stored as completed, never overdue. -/
theorem assignmentStatus_priority (a : CanvasAssignment) (now : Int) :
    assignmentStatus a now =
      (if a.graded_at.isSome then "completed"
       else if a.submitted_at.isSome then "submitted"
       else if (match a.due_at with | some d => decide (d < now) | none => false) then "overdue"
       else "upcoming") := by
  unfold assignmentStatus
  by_cases hg : a.graded_at.isSome <;> by_cases hs : a.submitted_at.isSome <;>
    by_cases hd : (match a.due_at with | some d => decide (d < now) | none => false) = true <;>
    simp [hg, hs, hd]

/-- C6: for an authenticated user whose backend validation cannot be
fetched, answers not-ok, or reports the token invalid, the dashboard data
route returns HTTP 200 with connected = false and the all-zero stats object
instead of an error response. -/
theorem dashboard_disconnected_zero_stats (env : DashEnv) (u : String)
    (huser : env.user = some u)
    (hval : env.validateFetch = none ∨
      ∃ v, env.validateFetch = some v ∧ (v.ok = false ∨ v.valid = false)) :
    (dashboardDataGET env).httpStatus = 200 ∧
    (dashboardDataGET env).connected = some false ∧
    (dashboardDataGET env).errorMsg = none ∧
    (dashboardDataGET env).stats = some zeroStats ∧
    zeroStats.total_courses = 0 ∧ zeroStats.due_soon = 0 ∧
    zeroStats.completed_this_week = 0 ∧ zeroStats.average_grade = 0 := by
  unfold dashboardDataGET
  rw [huser]
  dsimp only
  rcases hval with h | ⟨v, hv, hcase⟩
  · rw [h]
    exact ⟨rfl, rfl, rfl, rfl, rfl, rfl, rfl, rfl⟩
  · rw [hv]
    dsimp only
    rcases hcase with hok | hvalid
    · rw [hok]
      exact ⟨rfl, rfl, rfl, rfl, rfl, rfl, rfl, rfl⟩
    · cases hok2 : v.ok with
      | false =>
          exact ⟨rfl, rfl, rfl, rfl, rfl, rfl, rfl, rfl⟩
      | true =>
          rw [hvalid]
          exact ⟨rfl, rfl, rfl, rfl, rfl, rfl, rfl, rfl⟩

/-- Witness for C6 at a concrete request: backend validation ok but valid
false. -/
theorem dashboard_disconnected_zero_stats_witness :
    (dashboardDataGET dashDisconnectedEnv).httpStatus = 200 ∧
    (dashboardDataGET dashDisconnectedEnv).connected = some false ∧
    (dashboardDataGET dashDisconnectedEnv).errorMsg = none ∧
    (dashboardDataGET dashDisconnectedEnv).stats = some zeroStats ∧
    zeroStats.total_courses = 0 ∧ zeroStats.due_soon = 0 ∧
    zeroStats.completed_this_week = 0 ∧ zeroStats.average_grade = 0 :=
  dashboard_disconnected_zero_stats dashDisconnectedEnv "user-1" rfl
    (Or.inr ⟨⟨true, false⟩, rfl, Or.inr rfl⟩)

/-- C8 counterexample: a cached assignment and its freshly fetched Canvas
counterpart that differ only in description are not reported as a conflict
at all, even though the field-by-field comparison lists description as a
differing field; the reporting gate compares only title, due date and
points. -/
theorem detectConflicts_misses_description_only_diff :
    identifyConflictFields descOnlyLocalRow descOnlyRemote = ["description"] ∧
    descOnlyLocalRow.description ≠ descOnlyRemote.description ∧
    detectConflicts [descOnlyLocalRow] (fun _ => some descOnlyRemote) = [] := by
  refine ⟨rfl, ?_, rfl⟩
  decide

/-- C8 amended: a cached row and its re-fetched counterpart are reported
exactly when title, due date or points differ, and the reported
conflictFields list holds exactly the differing field names among title,
due_date, points_possible and description, in that fixed order. -/
theorem detectConflicts_reports_exact_diffs (l : AssignmentFields) (r : CanvasAssignment) :
    detectConflicts [l] (fun _ => some r) =
      (if l.title ≠ r.name ∨ l.due_date ≠ r.due_at ∨ l.points_possible ≠ r.points_possible
       then [⟨l, r, conflictFieldNames.filter (fieldDiffers l r)⟩]
       else []) := by
  have hfields : identifyConflictFields l r = conflictFieldNames.filter (fieldDiffers l r) := by
    unfold identifyConflictFields conflictFieldNames fieldDiffers
    by_cases h1 : l.title = r.name <;> by_cases h2 : l.due_date = r.due_at <;>
      by_cases h3 : l.points_possible = r.points_possible <;>
      by_cases h4 : l.description = r.description <;>
      simp +decide [h1, h2, h3, h4, List.filter]
  unfold detectConflicts
  simp only [List.foldl_cons, List.foldl_nil]
  rw [hfields]
  by_cases h1 : l.title = r.name <;> by_cases h2 : l.due_date = r.due_at <;>
    by_cases h3 : l.points_possible = r.points_possible <;>
    simp [hasConflict, h1, h2, h3]

/-- C7 counterexample: ten cached assignments of which exactly three are due
strictly within the next 7 days with status upcoming, plus one more due in
the window with status in_progress; the route reports due_soon = 4, not 3,
because in_progress also counts. -/
theorem dueSoon_counts_in_progress_too :
    tenAssignmentsSample.length = 10 ∧
    (tenAssignmentsSample.filter (claimDueSoonUpcoming 0)).length = 3 ∧
    (dashboardDataGET tenAssignmentsEnv).stats.map DashStats.due_soon = some 4 ∧
    (dashboardDataGET tenAssignmentsEnv).stats.map DashStats.due_soon ≠ some 3 := by
  refine ⟨rfl, by decide, rfl, by decide⟩

/-- C7 amended: over ten cached assignments of which exactly three are due
strictly in the future within the next 7 days with a pending status
(upcoming or in_progress), the connected dashboard response reports
due_soon = 3. -/
theorem dueSoon_eq_pending_within_week (env : DashEnv) (u : String) (v : ValidationResult)
    (as : List AssignmentJson)
    (huser : env.user = some u) (hval : env.validateFetch = some v)
    (hok : v.ok = true) (hvalid : v.valid = true)
    (has : env.assignmentsFetch = SettledFetch.fulfilled true as)
    (hlen : as.length = 10)
    (h3 : (as.filter (dueSoonSpecPred env.now)).length = 3) :
    (dashboardDataGET env).stats.map DashStats.due_soon = some 3 := by
  have hpred : ∀ a, dueSoonPred env.now a = dueSoonSpecPred env.now a := by
    intro a
    unfold dueSoonPred dueSoonSpecPred
    cases a.due_date with
    | none => rfl
    | some d =>
        by_cases hA : env.now < d <;> by_cases hB : d ≤ env.now + oneWeekMs <;>
          simp [hA, hB]
  unfold dashboardDataGET
  rw [huser]
  dsimp only
  rw [hval]
  dsimp only
  rw [hok, hvalid, has]
  show some (dueSoonCount as env.now) = some 3
  rw [← h3]
  unfold dueSoonCount
  rw [List.filter_congr (fun a _ => hpred a)]

/-- Witness for the amended C7 at a concrete request serving ten
assignments with exactly three pending inside the window. -/
theorem dueSoon_eq_pending_within_week_witness :
    (dashboardDataGET tenPendingEnv).stats.map DashStats.due_soon = some 3 :=
  dueSoon_eq_pending_within_week tenPendingEnv "user-1" ⟨true, true⟩ tenPendingSample
    rfl rfl rfl rfl rfl rfl (by decide)

/-- C2: a full sync against the mocked Canvas API with 3 courses, 5
assignments and 2 grades, every operation succeeding, returns 10 and writes
exactly one sync log row with final status completed and items_synced = 10;
but only 3 + 5 = 8 cache rows are written: both grades upserts are rejected
by the database (their conflict target user_id, course_id, canvas_grade_id
matches no unique constraint of the grades table) and the ignored error
leaves the grades cache empty. -/
theorem syncRun_logs_ten_but_writes_eight :
    (syncCanvasData mockedCanvasEnv initialDB sampleConnection "full" 1000).result
      = Except.ok 10 ∧
    (syncCanvasData mockedCanvasEnv initialDB sampleConnection "full" 1000).db.courses.length
      = 3 ∧
    (syncCanvasData mockedCanvasEnv initialDB sampleConnection "full" 1000).db.assignments.length
      = 5 ∧
    (syncCanvasData mockedCanvasEnv initialDB sampleConnection "full" 1000).db.grades = [] ∧
    (syncCanvasData mockedCanvasEnv initialDB sampleConnection "full" 1000).db.syncLogs.map
      (fun r => (r.status, r.items_synced)) = [("completed", 10)] :=
  ⟨rfl, rfl, rfl, rfl, rfl⟩

/-- C5 counterexample: a successful sync carrying one course and one grade
counts the grade in its result, yet the grades table is empty after the
first run and still empty after a second identical run: the grades upsert
keyed by (user_id, course_id, canvas_grade_id) neither overwrites nor
inserts a row, because that conflict target matches no unique constraint of
the grades table and the rejected insert is silently ignored. -/
theorem gradeUpsert_neither_overwrites_nor_inserts :
    (syncCanvasData gradeOnlyEnv initialDB sampleConnection "full" 1000).result
      = Except.ok 2 ∧
    (syncCanvasData gradeOnlyEnv initialDB sampleConnection "full" 1000).db.grades = [] ∧
    (syncCanvasData gradeOnlyEnv
      (syncCanvasData gradeOnlyEnv initialDB sampleConnection "full" 1000).db
      sampleConnection "full" 2000).db.grades = [] :=
  ⟨rfl, rfl, rfl⟩

/-- C3 counterexample: with the second of two courses failing its per-course
fetch and the first carrying one assignment and one grade, the sync
completes with items_synced = 3, records the per-course failure in the
console log and upserts the surviving course and assignment rows, but it
writes no grade row at all, refuting the claim that the surviving courses
have their grades rows upserted. -/
theorem partialSync_drops_grade_rows :
    (syncCanvasData oneFailureEnv initialDB sampleConnection "full" 1000).result
      = Except.ok 3 ∧
    (syncCanvasData oneFailureEnv initialDB sampleConnection "full" 1000).consoleErrors
      = ["Failed to sync course 2:"] ∧
    (syncCanvasData oneFailureEnv initialDB sampleConnection "full" 1000).db.courses.length
      = 1 ∧
    (syncCanvasData oneFailureEnv initialDB sampleConnection "full" 1000).db.assignments.length
      = 1 ∧
    (syncCanvasData oneFailureEnv initialDB sampleConnection "full" 1000).db.grades = [] ∧
    (syncCanvasData oneFailureEnv initialDB sampleConnection "full" 1000).db.syncLogs.map
      (fun r => (r.status, r.items_synced)) = [("completed", 3)] :=
  ⟨rfl, rfl, rfl, rfl, rfl, rfl⟩

/-- Properties of the catch block applied to the log-inserted database:
exactly the failed log row is appended, connection rows with the connection
id get status error and keep every other field (in particular last_sync),
and the cache tables are untouched. -/
theorem syncFailure_inserted_props (db : DB) (conn : ConnectionRow) (syncType : String)
    (now : Int) (msg : String)
    (hfresh : ∀ r ∈ db.syncLogs, r.id ≠ db.nextLogId) :
    (syncFailure
      { db with
        syncLogs := db.syncLogs ++ [{
          id := db.nextLogId
          user_id := conn.user_id
          canvas_connection_id := conn.id
          status := "syncing"
          sync_type := syncType
          started_at := now
          completed_at := none
          error_message := none
          items_synced := 0 }]
        nextLogId := db.nextLogId + 1 }
      db.nextLogId conn.id now msg []).result = Except.error msg ∧
    (syncFailure
      { db with
        syncLogs := db.syncLogs ++ [{
          id := db.nextLogId
          user_id := conn.user_id
          canvas_connection_id := conn.id
          status := "syncing"
          sync_type := syncType
          started_at := now
          completed_at := none
          error_message := none
          items_synced := 0 }]
        nextLogId := db.nextLogId + 1 }
      db.nextLogId conn.id now msg []).db.syncLogs =
      db.syncLogs ++ [{
        id := db.nextLogId
        user_id := conn.user_id
        canvas_connection_id := conn.id
        status := "failed"
        sync_type := syncType
        started_at := now
        completed_at := some now
        error_message := some msg
        items_synced := 0 }] ∧
    (syncFailure
      { db with
        syncLogs := db.syncLogs ++ [{
          id := db.nextLogId
          user_id := conn.user_id
          canvas_connection_id := conn.id
          status := "syncing"
          sync_type := syncType
          started_at := now
          completed_at := none
          error_message := none
          items_synced := 0 }]
        nextLogId := db.nextLogId + 1 }
      db.nextLogId conn.id now msg []).db.connections =
      db.connections.map (fun r => if r.id = conn.id then { r with status := "error" } else r) ∧
    (syncFailure
      { db with
        syncLogs := db.syncLogs ++ [{
          id := db.nextLogId
          user_id := conn.user_id
          canvas_connection_id := conn.id
          status := "syncing"
          sync_type := syncType
          started_at := now
          completed_at := none
          error_message := none
          items_synced := 0 }]
        nextLogId := db.nextLogId + 1 }
      db.nextLogId conn.id now msg []).db.connections.map (fun r => r.last_sync) =
      db.connections.map (fun r => r.last_sync) ∧
    (syncFailure
      { db with
        syncLogs := db.syncLogs ++ [{
          id := db.nextLogId
          user_id := conn.user_id
          canvas_connection_id := conn.id
          status := "syncing"
          sync_type := syncType
          started_at := now
          completed_at := none
          error_message := none
          items_synced := 0 }]
        nextLogId := db.nextLogId + 1 }
      db.nextLogId conn.id now msg []).db.courses = db.courses ∧
    (syncFailure
      { db with
        syncLogs := db.syncLogs ++ [{
          id := db.nextLogId
          user_id := conn.user_id
          canvas_connection_id := conn.id
          status := "syncing"
          sync_type := syncType
          started_at := now
          completed_at := none
          error_message := none
          items_synced := 0 }]
        nextLogId := db.nextLogId + 1 }
      db.nextLogId conn.id now msg []).db.assignments = db.assignments ∧
    (syncFailure
      { db with
        syncLogs := db.syncLogs ++ [{
          id := db.nextLogId
          user_id := conn.user_id
          canvas_connection_id := conn.id
          status := "syncing"
          sync_type := syncType
          started_at := now
          completed_at := none
          error_message := none
          items_synced := 0 }]
        nextLogId := db.nextLogId + 1 }
      db.nextLogId conn.id now msg []).db.grades = db.grades := by
  simp only [syncFailure, updateSyncLogRows, updateConnectionRows]
  refine ⟨?_, ?_, ?_, ?_, ?_, ?_, ?_⟩ <;>
    first
      | trivial
      | rfl
      | (rw [List.map_append,
          map_update_of_ne db.syncLogs SyncLogRow.id db.nextLogId _ hfresh]
         simp)
      | (rw [List.map_map]
         refine List.map_congr_left ?_
         intro r _
         by_cases h : r.id = conn.id <;> simp [h])

/-- C4: on every run where the token decryption fails, the connection test
fails, or the course list fetch fails (each landing in the catch block
after the syncing log row was inserted), syncCanvasData rethrows the error,
the one new sync log row ends failed carrying the error message, the
connection rows with the connection id are set to status error, last_sync
is not updated anywhere, and no cache table changes. -/
theorem syncCanvasData_error_path (env : CanvasEnv) (db : DB) (conn : ConnectionRow)
    (syncType : String) (now : Int)
    (hfresh : ∀ r ∈ db.syncLogs, r.id ≠ db.nextLogId)
    (hfail : (∃ m, env.decryptToken conn.encrypted_token conn.token_salt = Except.error m) ∨
      (∃ t, env.decryptToken conn.encrypted_token conn.token_salt = Except.ok t ∧
        env.testConnection = false) ∨
      (∃ t e, env.decryptToken conn.encrypted_token conn.token_salt = Except.ok t ∧
        env.testConnection = true ∧ getFullSyncData env = Except.error e)) :
    ∃ msg,
      (syncCanvasData env db conn syncType now).result = Except.error msg ∧
      (syncCanvasData env db conn syncType now).db.syncLogs =
        db.syncLogs ++ [{
          id := db.nextLogId
          user_id := conn.user_id
          canvas_connection_id := conn.id
          status := "failed"
          sync_type := syncType
          started_at := now
          completed_at := some now
          error_message := some msg
          items_synced := 0 }] ∧
      (syncCanvasData env db conn syncType now).db.connections =
        db.connections.map (fun r =>
          if r.id = conn.id then { r with status := "error" } else r) ∧
      (syncCanvasData env db conn syncType now).db.connections.map (fun r => r.last_sync) =
        db.connections.map (fun r => r.last_sync) ∧
      (syncCanvasData env db conn syncType now).db.courses = db.courses ∧
      (syncCanvasData env db conn syncType now).db.assignments = db.assignments ∧
      (syncCanvasData env db conn syncType now).db.grades = db.grades := by
  rcases hfail with ⟨m, hd⟩ | ⟨t, hd, htc⟩ | ⟨t, e, hd, htc, hs⟩
  · refine ⟨m, ?_⟩
    rw [syncCanvasData_failure env db conn syncType now m (Or.inl hd)]
    exact syncFailure_inserted_props db conn syncType now m hfresh
  · refine ⟨"Canvas connection failed", ?_⟩
    rw [syncCanvasData_failure env db conn syncType now "Canvas connection failed"
      (Or.inr (Or.inl ⟨t, hd, htc, rfl⟩))]
    exact syncFailure_inserted_props db conn syncType now _ hfresh
  · refine ⟨e, ?_⟩
    rw [syncCanvasData_failure env db conn syncType now e (Or.inr (Or.inr ⟨t, hd, htc, hs⟩))]
    exact syncFailure_inserted_props db conn syncType now e hfresh

/-- Witness for C4 at a concrete run whose decryption is the real
CanvasTokenManager model, which fails with the generic message. -/
theorem syncCanvasData_error_path_witness :
    ∃ msg,
      (syncCanvasData realDecryptEnv initialDB sampleConnection "full" 1000).result
        = Except.error msg ∧
      (syncCanvasData realDecryptEnv initialDB sampleConnection "full" 1000).db.syncLogs =
        initialDB.syncLogs ++ [{
          id := initialDB.nextLogId
          user_id := sampleConnection.user_id
          canvas_connection_id := sampleConnection.id
          status := "failed"
          sync_type := "full"
          started_at := 1000
          completed_at := some 1000
          error_message := some msg
          items_synced := 0 }] ∧
      (syncCanvasData realDecryptEnv initialDB sampleConnection "full" 1000).db.connections =
        initialDB.connections.map (fun r =>
          if r.id = sampleConnection.id then { r with status := "error" } else r) ∧
      (syncCanvasData realDecryptEnv initialDB sampleConnection "full" 1000).db.connections.map
          (fun r => r.last_sync) =
        initialDB.connections.map (fun r => r.last_sync) ∧
      (syncCanvasData realDecryptEnv initialDB sampleConnection "full" 1000).db.courses
        = initialDB.courses ∧
      (syncCanvasData realDecryptEnv initialDB sampleConnection "full" 1000).db.assignments
        = initialDB.assignments ∧
      (syncCanvasData realDecryptEnv initialDB sampleConnection "full" 1000).db.grades
        = initialDB.grades :=
  syncCanvasData_error_path realDecryptEnv initialDB sampleConnection "full" 1000
    (by intro r hr; exact absurd hr (List.not_mem_nil r))
    (Or.inl ⟨"Failed to decrypt Canvas token", rfl⟩)

/-- C10: a fetched assignment or grade whose course id is not mapped by the
course table of the connection is silently skipped: it produces no row and
no count; the loop counters count exactly the mapped items, so the returned
count can be strictly below the number of fetched items (the concrete
single-item loop below counts 0 of 1); and the sync log row of a successful
run still ends completed, carrying exactly the courses-plus-mapped count. -/
theorem sync_skips_unmapped_items (uid : String) (rows : List CourseRow) (now : Int)
    (db : DB) (k : Nat) :
    (∀ a : CanvasAssignment, courseMapLookup rows (toString a.course_id) = none →
      syncAssignments uid rows now (db, k) [a] = (db, k)) ∧
    (∀ g : CanvasGrade, courseMapLookup rows (toString g.course_id) = none →
      syncGrades uid rows now (db, k) [g] = (db, k)) ∧
    (∀ as : List CanvasAssignment,
      (syncAssignments uid rows now (db, k) as).2 =
        k + as.countP (fun a => (courseMapLookup rows (toString a.course_id)).isSome)) ∧
    (∀ gs : List CanvasGrade,
      (syncGrades uid rows now (db, k) gs).2 =
        k + gs.countP (fun g => (courseMapLookup rows (toString g.course_id)).isSome)) ∧
    (syncAssignments uid [] now (db, k) [mkAssignment 99 5]).2 = k ∧
    (∀ (dbx : DB) (conn : ConnectionRow) (logId : Nat) (data : CanvasSyncData)
        (cerrs : List String) (r : SyncLogRow),
      r ∈ (syncHappy dbx conn logId now data cerrs).db.syncLogs → r.id = logId →
      r.status = "completed" ∧
      r.items_synced =
        data.courses.length
          + data.assignments.countP (fun a =>
              (courseMapLookup
                (connectionCourses (syncCourses conn.user_id conn.id now (dbx, 0) data.courses).1
                  conn.id)
                (toString a.course_id)).isSome)
          + data.grades.countP (fun g =>
              (courseMapLookup
                (connectionCourses (syncCourses conn.user_id conn.id now (dbx, 0) data.courses).1
                  conn.id)
                (toString g.course_id)).isSome)) := by
  refine ⟨?_, ?_, ?_, ?_, ?_, ?_⟩
  · intro a ha
    simp [syncAssignments, ha]
  · intro g hg
    simp [syncGrades, hg]
  · intro as
    exact syncAssignments_count uid rows now as db k
  · intro gs
    exact syncGrades_count uid rows now gs db k
  · rfl
  · intro dbx conn logId data cerrs r hmem hid
    have an := syncHappy_anatomy dbx conn logId now data cerrs
    rw [an.2.2.2.2.2.2] at hmem
    rcases List.mem_map.mp hmem with ⟨r0, hr0, heq⟩
    by_cases hc : r0.id = logId
    · rw [if_pos hc] at heq
      rw [← heq]
      exact ⟨rfl, rfl⟩
    · rw [if_neg hc] at heq
      rw [← heq] at hid
      exact absurd hid hc

/-- Witness for C10: with an empty course table, a fetched assignment and a
fetched grade are both dropped without a row or a count. -/
theorem sync_skips_unmapped_items_witness :
    syncAssignments "user-1" [] 0 (initialDB, 0) [mkAssignment 99 5] = (initialDB, 0) ∧
    syncGrades "user-1" [] 0 (initialDB, 0) [mkGrade 99 5] = (initialDB, 0) :=
  ⟨(sync_skips_unmapped_items "user-1" [] 0 initialDB 0).1 (mkAssignment 99 5) rfl,
   (sync_skips_unmapped_items "user-1" [] 0 initialDB 0).2.1 (mkGrade 99 5) rfl⟩

/-- Rerunning the happy tail on a database already holding the tables the
first run produced changes no row count: the courses fold only overwrites
(identifying projection unchanged), the assignments fold only overwrites
(key list unchanged), the grades table passes through both runs, and after
the second run the connection rows carry status connected and the second
last_sync. -/
theorem syncHappy_rerun_stable (dbA dbB : DB) (conn : ConnectionRow) (logId1 logId2 : Nat)
    (now1 now2 : Int) (data : CanvasSyncData) (cerrs1 cerrs2 : List String)
    (hco : dbB.courses = (syncHappy dbA conn logId1 now1 data cerrs1).db.courses)
    (has2 : dbB.assignments = (syncHappy dbA conn logId1 now1 data cerrs1).db.assignments) :
    (syncHappy dbB conn logId2 now2 data cerrs2).db.courses.map courseKeyIdProj =
      (syncHappy dbA conn logId1 now1 data cerrs1).db.courses.map courseKeyIdProj ∧
    (syncHappy dbB conn logId2 now2 data cerrs2).db.courses.length =
      (syncHappy dbA conn logId1 now1 data cerrs1).db.courses.length ∧
    (syncHappy dbB conn logId2 now2 data cerrs2).db.assignments.map assignmentKey =
      (syncHappy dbA conn logId1 now1 data cerrs1).db.assignments.map assignmentKey ∧
    (syncHappy dbB conn logId2 now2 data cerrs2).db.assignments.length =
      (syncHappy dbA conn logId1 now1 data cerrs1).db.assignments.length ∧
    (syncHappy dbA conn logId1 now1 data cerrs1).db.grades = dbA.grades ∧
    (syncHappy dbB conn logId2 now2 data cerrs2).db.grades = dbB.grades ∧
    (∀ r ∈ (syncHappy dbB conn logId2 now2 data cerrs2).db.connections,
      r.id = conn.id → r.status = "connected" ∧ r.last_sync = some now2) := by
  obtain ⟨-, -, hAco, hAas, hAgr, -, -⟩ := syncHappy_anatomy dbA conn logId1 now1 data cerrs1
  obtain ⟨-, -, hBco, hBas, hBgr, hBconn, -⟩ := syncHappy_anatomy dbB conn logId2 now2 data cerrs2
  rcases hA : syncCourses conn.user_id conn.id now1 (dbA, 0) data.courses with ⟨SA, kA⟩
  rw [hA] at hAco hAas
  dsimp only at hAco hAas
  have hpresentA : ∀ c ∈ data.courses, courseKeyPresent SA.courses (conn.id, toString c.id) := by
    intro c hc
    have h := syncCourses_keys_present conn.user_id conn.id now1 data.courses dbA 0 c hc
    rw [hA] at h
    exact h
  have hdbBco : dbB.courses = SA.courses := hco.trans hAco
  rcases hB : syncCourses conn.user_id conn.id now2 (dbB, 0) data.courses with ⟨SB, kB⟩
  rw [hB] at hBco hBas
  dsimp only at hBco hBas
  have hBframe := syncCourses_frame conn.user_id conn.id now2 data.courses dbB 0
  rw [hB] at hBframe
  dsimp only at hBframe
  have hprojB : SB.courses.map courseKeyIdProj = dbB.courses.map courseKeyIdProj := by
    have h := syncCourses_proj_stable conn.user_id conn.id now2 data.courses dbB 0
      (fun c hc => hdbBco ▸ hpresentA c hc)
    rw [hB] at h
    exact h
  have hprojBA : SB.courses.map courseKeyIdProj = SA.courses.map courseKeyIdProj :=
    hprojB.trans (congrArg (List.map courseKeyIdProj) hdbBco)
  have hlenBA : SB.courses.length = SA.courses.length := by
    have h1 := congrArg List.length hprojBA
    rwa [List.length_map, List.length_map] at h1
  have hlookup : ∀ cid, courseMapLookup (connectionCourses SB conn.id) cid =
      courseMapLookup (connectionCourses SA conn.id) cid :=
    connectionCourses_lookup_congr SB SA conn.id hprojBA
  rcases hA2 : syncAssignments conn.user_id (connectionCourses SA conn.id) now1 (SA, kA)
      data.assignments with ⟨TA, mA⟩
  rw [hA2] at hAas
  dsimp only at hAas
  have hpresent2 : ∀ a ∈ data.assignments, ∀ cid,
      courseMapLookup (connectionCourses SA conn.id) (toString a.course_id) = some cid →
      assignmentKeyPresent TA.assignments (cid, toString a.id) := by
    intro a ha cid hcid
    have h := syncAssignments_keys_present conn.user_id (connectionCourses SA conn.id) now1
      data.assignments SA kA a cid ha hcid
    rw [hA2] at h
    exact h
  have hSBas : SB.assignments = TA.assignments := hBframe.1.trans (has2.trans hAas)
  have hstable := syncAssignments_length_stable conn.user_id (connectionCourses SB conn.id)
    now2 data.assignments SB kB (by
      intro a ha cid hcid
      rw [hlookup] at hcid
      rw [hSBas]
      exact hpresent2 a ha cid hcid)
  rcases hB2 : syncAssignments conn.user_id (connectionCourses SB conn.id) now2 (SB, kB)
      data.assignments with ⟨TB, mB⟩
  rw [hB2] at hBas hstable
  dsimp only at hBas hstable
  refine ⟨?_, ?_, ?_, ?_, hAgr, hBgr, ?_⟩
  · rw [hBco, hAco]
    exact hprojBA
  · rw [hBco, hAco]
    exact hlenBA
  · rw [hBas, hAas]
    exact hstable.2.trans (congrArg (List.map assignmentKey) hSBas)
  · rw [hBas, hAas]
    exact hstable.1.trans (congrArg List.length hSBas)
  · intro r hmem hid
    rw [hBconn] at hmem
    rcases List.mem_map.mp hmem with ⟨r0, hr0, heq⟩
    by_cases hcase : r0.id = conn.id
    · rw [if_pos hcase] at heq
      rw [← heq]
      exact ⟨rfl, rfl⟩
    · rw [if_neg hcase] at heq
      rw [← heq] at hid
      exact absurd hid hcase

/-- C5: rerunning syncCanvasData against unchanged remote data is
idempotent with respect to row counts: the second run leaves the courses
table with the same identifying projection (so the same keys, ids and
count) and the assignments table with the same key list and count; grade
rows are never written by either run (the grades conflict target matches no
unique constraint, so both runs leave the grades table exactly as it
started); and the second run re-marks the connection rows connected with
the second last_sync timestamp. -/
theorem sync_rerun_idempotent_counts (env : CanvasEnv) (db : DB) (conn : ConnectionRow)
    (syncType : String) (now1 now2 : Int) (t : String) (data : CanvasSyncData)
    (cerrs : List String)
    (hd : env.decryptToken conn.encrypted_token conn.token_salt = Except.ok t)
    (ht : env.testConnection = true)
    (hs : getFullSyncData env = Except.ok (data, cerrs)) :
    (syncCanvasData env (syncCanvasData env db conn syncType now1).db conn syncType
        now2).db.courses.map courseKeyIdProj =
      (syncCanvasData env db conn syncType now1).db.courses.map courseKeyIdProj ∧
    (syncCanvasData env (syncCanvasData env db conn syncType now1).db conn syncType
        now2).db.courses.length =
      (syncCanvasData env db conn syncType now1).db.courses.length ∧
    (syncCanvasData env (syncCanvasData env db conn syncType now1).db conn syncType
        now2).db.assignments.map assignmentKey =
      (syncCanvasData env db conn syncType now1).db.assignments.map assignmentKey ∧
    (syncCanvasData env (syncCanvasData env db conn syncType now1).db conn syncType
        now2).db.assignments.length =
      (syncCanvasData env db conn syncType now1).db.assignments.length ∧
    (syncCanvasData env db conn syncType now1).db.grades = db.grades ∧
    (syncCanvasData env (syncCanvasData env db conn syncType now1).db conn syncType
        now2).db.grades = (syncCanvasData env db conn syncType now1).db.grades ∧
    (∀ r ∈ (syncCanvasData env (syncCanvasData env db conn syncType now1).db conn syncType
        now2).db.connections,
      r.id = conn.id → r.status = "connected" ∧ r.last_sync = some now2) := by
  have h2 := syncCanvasData_success env (syncCanvasData env db conn syncType now1).db
    conn syncType now2 t data cerrs hd ht hs
  have h1 := syncCanvasData_success env db conn syncType now1 t data cerrs hd ht hs
  rw [h2, h1]
  exact syncHappy_rerun_stable _ _ conn _ _ now1 now2 data cerrs cerrs rfl rfl

/-- Witness for C5 at a concrete pair of runs over one course and one
grade. -/
theorem sync_rerun_idempotent_counts_witness :
    (syncCanvasData gradeOnlyEnv
        (syncCanvasData gradeOnlyEnv initialDB sampleConnection "full" 1000).db
        sampleConnection "full" 2000).db.courses.map courseKeyIdProj =
      (syncCanvasData gradeOnlyEnv initialDB sampleConnection "full" 1000).db.courses.map
        courseKeyIdProj :=
  (sync_rerun_idempotent_counts gradeOnlyEnv initialDB sampleConnection "full" 1000 2000
    "canvas-token" ⟨[mkCourse 1], [], [mkGrade 101 1]⟩ [] rfl rfl rfl).1

/-- The successful-run wiring restated through logInsertedDB. -/
theorem syncCanvasData_success_log (env : CanvasEnv) (db : DB) (conn : ConnectionRow)
    (syncType : String) (now : Int) (t : String) (data : CanvasSyncData)
    (cerrs : List String)
    (hd : env.decryptToken conn.encrypted_token conn.token_salt = Except.ok t)
    (ht : env.testConnection = true)
    (hs : getFullSyncData env = Except.ok (data, cerrs)) :
    syncCanvasData env db conn syncType now =
      syncHappy (logInsertedDB db conn syncType now) conn db.nextLogId now data cerrs :=
  syncCanvasData_success env db conn syncType now t data cerrs hd ht hs

/-- C3 (amended): when the per-course fetch fails for the middle one of
three fetched courses but succeeds for the others, the sync still completes
for the others: the returned and logged count is the two surviving courses
plus all their assignments and grades, their course rows and assignment
rows are upserted, the per-course failure is recorded in the console error
log, and (the grades upserts being rejected for want of a matching unique
constraint) no grade row is written. -/
theorem partial_sync_completes_for_other_courses
    (env : CanvasEnv) (conn : ConnectionRow) (syncType : String) (now : Int) (t : String)
    (c1 c2 c3 : CanvasCourse) (a1 a3 : List CanvasAssignment) (g1 g3 : List CanvasGrade)
    (e : String)
    (hd : env.decryptToken conn.encrypted_token conn.token_salt = Except.ok t)
    (ht : env.testConnection = true)
    (hcs : env.getCourses = Except.ok [c1, c2, c3])
    (ha1 : env.getAssignments c1.id = Except.ok a1)
    (hg1 : env.getGrades c1.id = Except.ok g1)
    (ha2 : env.getAssignments c2.id = Except.error e)
    (ha3 : env.getAssignments c3.id = Except.ok a3)
    (hg3 : env.getGrades c3.id = Except.ok g3)
    (hne : toString c1.id ≠ toString c3.id) :
    (syncCanvasData env (mkInitialDB conn) conn syncType now).result =
      Except.ok (2 + (a1.length + a3.length) + (g1.length + g3.length)) ∧
    (syncCanvasData env (mkInitialDB conn) conn syncType now).consoleErrors =
      ["Failed to sync course " ++ toString c2.id ++ ":"] ∧
    (syncCanvasData env (mkInitialDB conn) conn syncType now).db.courses.map
        (fun r => r.fields) =
      [courseFieldsOfCanvas conn.user_id conn.id c1,
       courseFieldsOfCanvas conn.user_id conn.id c3] ∧
    (∀ a ∈ a1, assignmentKeyPresent
      (syncCanvasData env (mkInitialDB conn) conn syncType now).db.assignments
      (0, toString a.id)) ∧
    (∀ a ∈ a3, assignmentKeyPresent
      (syncCanvasData env (mkInitialDB conn) conn syncType now).db.assignments
      (1, toString a.id)) ∧
    (syncCanvasData env (mkInitialDB conn) conn syncType now).db.grades = [] ∧
    (syncCanvasData env (mkInitialDB conn) conn syncType now).db.syncLogs.map
        (fun r => (r.status, r.items_synced)) =
      [("completed", 2 + (a1.length + a3.length) + (g1.length + g3.length))] := by
  have hs : getFullSyncData env = Except.ok
      (⟨[c1, c3],
        a1.map (fun a => { a with course_id := c1.id }) ++
          a3.map (fun a => { a with course_id := c3.id }),
        g1.map (fun g => { g with course_id := c1.id }) ++
          g3.map (fun g => { g with course_id := c3.id })⟩,
      ["Failed to sync course " ++ toString c2.id ++ ":"]) := by
    unfold getFullSyncData
    rw [hcs]
    simp only [List.foldl_cons, List.foldl_nil, fullSyncStep, ha1, hg1, ha2, ha3, hg3,
      emptySyncData]
    simp
  have hw := syncCanvasData_success_log env (mkInitialDB conn) conn syncType now t _ _
    hd ht hs
  rw [hw]
  obtain ⟨hcons, hres, hco, hasg, hgr, hconn, hlog⟩ :=
    syncHappy_anatomy (logInsertedDB (mkInitialDB conn) conn syncType now) conn
      (mkInitialDB conn).nextLogId now
      ⟨[c1, c3],
        a1.map (fun a => { a with course_id := c1.id }) ++
          a3.map (fun a => { a with course_id := c3.id }),
        g1.map (fun g => { g with course_id := c1.id }) ++
          g3.map (fun g => { g with course_id := c3.id })⟩
      ["Failed to sync course " ++ toString c2.id ++ ":"]
  dsimp only at hres hco hasg hgr hlog
  have hSAco : (syncCourses conn.user_id conn.id now
      (logInsertedDB (mkInitialDB conn) conn syncType now, 0) [c1, c3]).1.courses =
      [⟨0, courseFieldsOfCanvas conn.user_id conn.id c1, now⟩,
       ⟨1, courseFieldsOfCanvas conn.user_id conn.id c3, now⟩] := by
    simp only [syncCourses, List.foldl_cons, List.foldl_nil, upsertCourse_eq]
    simp [logInsertedDB, mkInitialDB, courseKey, courseFieldsOfCanvas, hne]
  have hrows : connectionCourses (syncCourses conn.user_id conn.id now
      (logInsertedDB (mkInitialDB conn) conn syncType now, 0) [c1, c3]).1 conn.id =
      [⟨0, courseFieldsOfCanvas conn.user_id conn.id c1, now⟩,
       ⟨1, courseFieldsOfCanvas conn.user_id conn.id c3, now⟩] := by
    unfold connectionCourses
    rw [hSAco]
    simp [courseFieldsOfCanvas]
  have hne31 : toString c3.id ≠ toString c1.id := fun h => hne h.symm
  have hlk1 : courseMapLookup
      [⟨0, courseFieldsOfCanvas conn.user_id conn.id c1, now⟩,
       ⟨1, courseFieldsOfCanvas conn.user_id conn.id c3, now⟩] (toString c1.id) = some 0 := by
    simp [courseMapLookup, courseFieldsOfCanvas, hne31]
  have hlk3 : courseMapLookup
      [⟨0, courseFieldsOfCanvas conn.user_id conn.id c1, now⟩,
       ⟨1, courseFieldsOfCanvas conn.user_id conn.id c3, now⟩] (toString c3.id) = some 1 := by
    simp [courseMapLookup, courseFieldsOfCanvas]
  have hNa : List.countP (fun a => (courseMapLookup (connectionCourses
        (syncCourses conn.user_id conn.id now
          (logInsertedDB (mkInitialDB conn) conn syncType now, 0) [c1, c3]).1 conn.id)
        (toString a.course_id)).isSome)
      (a1.map (fun a => { a with course_id := c1.id }) ++
        a3.map (fun a => { a with course_id := c3.id })) = a1.length + a3.length := by
    rw [List.countP_append, List.countP_map, List.countP_map]
    rw [List.countP_eq_length.mpr, List.countP_eq_length.mpr]
    · intro x _
      simp [Function.comp, hrows, hlk3]
    · intro x _
      simp [Function.comp, hrows, hlk1]
  have hNg : List.countP (fun g => (courseMapLookup (connectionCourses
        (syncCourses conn.user_id conn.id now
          (logInsertedDB (mkInitialDB conn) conn syncType now, 0) [c1, c3]).1 conn.id)
        (toString g.course_id)).isSome)
      (g1.map (fun g => { g with course_id := c1.id }) ++
        g3.map (fun g => { g with course_id := c3.id })) = g1.length + g3.length := by
    rw [List.countP_append, List.countP_map, List.countP_map]
    rw [List.countP_eq_length.mpr, List.countP_eq_length.mpr]
    · intro x _
      simp [Function.comp, hrows, hlk3]
    · intro x _
      simp [Function.comp, hrows, hlk1]
  refine ⟨?_, hcons, ?_, ?_, ?_, hgr.trans rfl, ?_⟩
  · rw [hres, hNa, hNg]
    rfl
  · rw [hco, hSAco]
    rfl
  · intro a ha
    rw [hasg]
    exact syncAssignments_keys_present conn.user_id _ now _ _ _
      { a with course_id := c1.id } 0
      (List.mem_append_left _ (List.mem_map_of_mem _ ha))
      (by rw [hrows]; exact hlk1)
  · intro a ha
    rw [hasg]
    exact syncAssignments_keys_present conn.user_id _ now _ _ _
      { a with course_id := c3.id } 1
      (List.mem_append_right _ (List.mem_map_of_mem _ ha))
      (by rw [hrows]; exact hlk3)
  · rw [hlog, hNa, hNg]
    simp [logInsertedDB, mkInitialDB]

/-- Witness for the amended C3 at a concrete run: of three courses the
middle one fails, and the run returns 4 = 2 courses + 1 assignment + 1
grade. -/
theorem partial_sync_completes_witness :
    (syncCanvasData threeCourseFailEnv (mkInitialDB sampleConnection) sampleConnection
      "full" 1000).result = Except.ok 4 :=
  (partial_sync_completes_for_other_courses threeCourseFailEnv sampleConnection "full" 1000
    "canvas-token" (mkCourse 1) (mkCourse 2) (mkCourse 3) [mkAssignment 11 1] []
    [mkGrade 101 1] [] "Canvas API error: 500 Internal Server Error"
    rfl rfl rfl rfl rfl rfl rfl rfl (by decide)).1

/-- Witness for C1 at a concrete token and salt. -/
theorem decryptToken_encryptToken_always_fails_witness :
    CanvasTokenManager.decryptToken
        (CanvasTokenManager.encryptToken "my-canvas-api-token" "a1b2") "a1b2"
      = Except.error "Failed to decrypt Canvas token" ∧
    CanvasTokenManager.decryptToken
        (CanvasTokenManager.encryptToken "my-canvas-api-token" "a1b2") "a1b2"
      ≠ Except.ok "my-canvas-api-token" :=
  decryptToken_encryptToken_always_fails "my-canvas-api-token" "a1b2"

/-- Witness for the amended C8 at a concrete pair differing in title and
description. -/
theorem detectConflicts_reports_exact_diffs_witness :
    detectConflicts [descOnlyLocalRow] (fun _ => some titleDescRemote) =
      (if descOnlyLocalRow.title ≠ titleDescRemote.name ∨
          descOnlyLocalRow.due_date ≠ titleDescRemote.due_at ∨
          descOnlyLocalRow.points_possible ≠ titleDescRemote.points_possible
       then [⟨descOnlyLocalRow, titleDescRemote,
         conflictFieldNames.filter (fieldDiffers descOnlyLocalRow titleDescRemote)⟩]
       else []) :=
  detectConflicts_reports_exact_diffs descOnlyLocalRow titleDescRemote

/-- Witness for C9 at a concrete past-due, submitted and graded assignment:
the stored status is completed. -/
theorem assignmentStatus_priority_witness :
    assignmentStatus
        { id := 11
          name := "Essay"
          description := none
          due_at := some 5000
          points_possible := some 10
          submission_types := ["online_upload"]
          submitted_at := some 6000
          graded_at := some 7000
          course_id := 1 } 9000 =
      (if (some (7000 : Int)).isSome then "completed"
       else if (some (6000 : Int)).isSome then "submitted"
       else if (match some (5000 : Int) with | some d => decide (d < (9000 : Int)) | none => false)
         then "overdue"
       else "upcoming") :=
  assignmentStatus_priority
    { id := 11
      name := "Essay"
      description := none
      due_at := some 5000
      points_possible := some 10
      submission_types := ["online_upload"]
      submitted_at := some 6000
      graded_at := some 7000
      course_id := 1 } 9000
